import Mathlib

/-!
# kfbreader: binding layer over the KFB vendor library

A shallow embedding of `src/kfbreader.cpp` / `src/kfbreader.h`.

* Nullable C pointers are `Option`: `none` is `nullptr`, `some a` a live address
  (for a pointer to a cell, `some v` is a valid pointer whose cell holds `v`).
* `int` / `long long` values are `Int`; every shift and conversion in the
  source stays inside the machine range because `maxLevel ≤ 6`.
* `double` values are the rationals they denote.  All doubles that occur are
  `int` values divided by `2 ^ level` with `level < 6`, which are exact in
  binary64.  The narrowing to `float` of the scale factor is `toFloat`.
* The global `g_kfb_lib` and the sequence of calls that left the process
  (into the dynamic loader, the vendor library, `free`) are threaded
  explicitly as a `Process`.
* A vendor entry point is a function of the calls made so far (the vendor
  library is stateful) and of its arguments; for output parameters it
  receives the current contents of the cells and returns the new contents.
-/

namespace KfbReader

/-- A non-null address. -/
abbrev Ptr := Nat

/-- Modelled from the spec: `HeaderInfoStruct` is declared in `KFB.h`, which is
not among the sources; the spec lists what `getHeaderInfo` reports as
`{height, width, scanScale, spendTime, scanTime, capRes, blockSize}`.
`Height`, `Width` and `ScanScale` are stored into `int` fields by
`kfbslide_open`. -/
structure HeaderInfoStruct where
  Height : Int
  Width : Int
  ScanScale : Int
  SpendTime : ℚ
  ScanTime : ℚ
  CapRes : ℚ
  BlockSize : Int

/-- Calls that leave the process, in the order they are made. -/
inductive Event where
  | dlopen (path : String)
  | dlclose (handle : Ptr)
  | InitImageFile (ctx : Ptr) (filename : String)
  | GetHeaderInfo (ctx : Ptr)
  | UnInitImageFile (ctx : Ptr)
  | GetImageStream (ctx : Ptr) (fScale : ℚ) (x y : Int)
  | GetImageDataRoi (ctx : Ptr) (fScale : ℚ) (x y width height : Int) (flag : Bool)
  | DeleteImageData (p : Ptr)
  | GetThumbnailImage (ctx : Ptr)
  | GetPreviewImage (ctx : Ptr)
  | GetLabelImage (ctx : Ptr)
  | free (p : Ptr)
  deriving DecidableEq

abbrev Trace := List Event

/-- Contents of the cells behind `int* nBytes, BYTE** buf`. -/
structure RegionOut where
  nBytes : Int
  buf : Option Ptr
  deriving DecidableEq

/-- Contents of the locals `buf`, `ret[0]`, `ret[1]`, `ret[2]` of
`load_associated_images`, handed to the three image entry points by address. -/
structure ImageOut where
  buf : Option Ptr
  ret0 : Int
  ret1 : Int
  ret2 : Int
  deriving DecidableEq

/-! Vendor entry points (the `DLL...Func` pointer types of `KFB.h`). -/

abbrev DLLInitImageFileFunc := Trace → Ptr → String → Bool
abbrev DLLGetHeaderInfoFunc := Trace → Ptr → Int × HeaderInfoStruct
abbrev DLLGetImageStreamFunc := Trace → Ptr → ℚ → Int → Int → RegionOut → RegionOut
abbrev DLLGetImageDataRoiFunc :=
  Trace → Ptr → ℚ → Int → Int → Int → Int → RegionOut → Bool → Bool × RegionOut
abbrev DLLUnInitImageFileFunc := Trace → Ptr → Int
abbrev DLLDeleteImageDataFunc := Trace → Ptr → Int
abbrev DLLGetImageFunc := Trace → Ptr → ImageOut → Bool × ImageOut

/-- What `dlsym` resolves in one shared object, by the symbol names that
`kfbslide_init` asks for. -/
structure SharedObject where
  InitImageFileFunc : Option DLLInitImageFileFunc
  GetHeaderInfoFunc : Option DLLGetHeaderInfoFunc
  GetImageStreamFunc : Option DLLGetImageStreamFunc
  GetImageDataRoiFunc : Option DLLGetImageDataRoiFunc
  UnInitImageFileFunc : Option DLLUnInitImageFileFunc
  DeleteImageDataFunc : Option DLLDeleteImageDataFunc
  GetThumnailImageFunc : Option DLLGetImageFunc
  GetPriviewInfoFunc : Option DLLGetImageFunc
  GetLableInfoFunc : Option DLLGetImageFunc

/-- The C/C++ runtime the binding layer runs on. `to_string_CapRes` is
`std::to_string` at the declared type of `HeaderInfoStruct::CapRes` (declared
in `KFB.h`, not among the sources). -/
structure Runtime where
  dlopen : String → Option (Ptr × SharedObject)
  malloc : Nat → Option Ptr
  to_string_CapRes : ℚ → String

/-- The struct `KfbLibrary` of `kfbreader.h`. -/
structure KfbLibrary where
  handle : Option Ptr
  initialized : Bool
  InitImageFile : Option DLLInitImageFileFunc
  GetHeaderInfo : Option DLLGetHeaderInfoFunc
  GetImageStream : Option DLLGetImageStreamFunc
  GetImageDataRoi : Option DLLGetImageDataRoiFunc
  UnInitImageFile : Option DLLUnInitImageFileFunc
  DeleteImageData : Option DLLDeleteImageDataFunc
  GetThumbnailImage : Option DLLGetImageFunc
  GetPreviewImage : Option DLLGetImageFunc
  GetLabelImage : Option DLLGetImageFunc

/-- The constructor `KfbLibrary::KfbLibrary()`. -/
def KfbLibrary.new : KfbLibrary where
  handle := none
  initialized := false
  InitImageFile := none
  GetHeaderInfo := none
  GetImageStream := none
  GetImageDataRoi := none
  UnInitImageFile := none
  DeleteImageData := none
  GetThumbnailImage := none
  GetPreviewImage := none
  GetLabelImage := none

/-- The struct `AssoImage`; `buf` is the address held by the `shared_ptr`. -/
structure AssoImage where
  nBytes : Int
  width : Int
  height : Int
  buf : Option Ptr
  deriving DecidableEq

/-- The struct `ImgHandle`. `imgStruct` comes from `new ImageInfoStruct` and is never
null; `assoNames` is `none` for `nullptr`, otherwise the entries of the array
before its first null entry. The two `std::map`s are association lists. -/
structure ImgHandle where
  imgStruct : Ptr
  isInitialized : Bool
  maxLevel : Int
  scanScale : Int
  width : Int
  height : Int
  properties : List (String × String)
  assoImages : List (String × AssoImage)
  assoNames : Option (List String)

/-- The constructor `ImgHandle::ImgHandle()`, given the address returned by
`new ImageInfoStruct`. -/
def ImgHandle.new (imgStruct : Ptr) : ImgHandle where
  imgStruct := imgStruct
  isInitialized := false
  maxLevel := 0
  scanScale := 0
  width := 0
  height := 0
  properties := []
  assoImages := []
  assoNames := none

/-- The global `g_kfb_lib` together with the calls made so far. -/
structure Process where
  g_kfb_lib : KfbLibrary
  trace : Trace

/-- Assignment `m[k] = v` on a `std::map`. -/
def mapAssign {α : Type} (m : List (String × α)) (k : String) (v : α) : List (String × α) :=
  (k, v) :: m.filter (fun e => e.1 != k)

/-- Lookup `m.find(k)` on a `std::map`; `none` is `m.end()`. -/
def mapFind {α : Type} (m : List (String × α)) (k : String) : Option α :=
  m.lookup k

/-- The deleter installed by `make_dll_managed_ptr`, run on address `p`. -/
def dllDeleter (lib : KfbLibrary) (p : Option Ptr) (t : Trace) : Trace :=
  match p with
  | none => t
  | some a =>
    if lib.DeleteImageData.isSome then t ++ [Event.DeleteImageData a]
    else t ++ [Event.free a]

/-- The destructor `ImgHandle::~ImgHandle()`, followed by the destruction of the
members (the `shared_ptr` of every cached image runs its deleter). The deleters run in
the order of the association list; the order in which `std::map` destroys its nodes is
left open by the language and is not modelled. -/
def ImgHandle.destroy (lib : KfbLibrary) (s : ImgHandle) (t : Trace) : Trace :=
  let t1 :=
    if s.isInitialized && lib.UnInitImageFile.isSome then
      t ++ [Event.UnInitImageFile s.imgStruct]
    else t
  s.assoImages.foldl (fun acc e => dllDeleter lib e.2.buf acc) t1

/-- One of the three blocks of `load_associated_images`: call the entry point
on the shared locals, and cache the image under `name` when the call
succeeded and `buf` is non-null. -/
def loadOne (get : DLLGetImageFunc) (ev : Ptr → Event) (name : String)
    (st : ImgHandle × ImageOut × Trace) : ImgHandle × ImageOut × Trace :=
  let s := st.1
  let r := get st.2.2 s.imgStruct st.2.1
  let t := st.2.2 ++ [ev s.imgStruct]
  let out := r.2
  if r.1 && out.buf.isSome then
    ({ s with
        assoImages := mapAssign s.assoImages name
          { nBytes := out.ret0, width := out.ret1, height := out.ret2, buf := out.buf }
        assoNames := s.assoNames.map (fun names => names ++ [name]) },
      out, t)
  else (s, out, t)

/-- The function `load_associated_images`. -/
def load_associated_images (lib : KfbLibrary) (s : ImgHandle) (t : Trace) : ImgHandle × Trace :=
  match lib.GetThumbnailImage, lib.GetPreviewImage, lib.GetLabelImage with
  | some getThumbnail, some getPreview, some getLabel =>
    let s0 := { s with assoNames := some [] }
    let st0 : ImgHandle × ImageOut × Trace := (s0, { buf := none, ret0 := 0, ret1 := 0, ret2 := 0 }, t)
    let st1 := loadOne getLabel Event.GetLabelImage "label" st0
    let st2 := loadOne getThumbnail Event.GetThumbnailImage "thumbnail" st1
    let st3 := loadOne getPreview Event.GetPreviewImage "macro" st2
    (st3.1, st3.2.2)
  | _, _, _ => (s, t)

/-- The function `kfbslide_init`. -/
def kfbslide_init (rt : Runtime) (p : Process) (dllPath : String) : Bool × Process :=
  if p.g_kfb_lib.initialized then (true, p)
  else
    let t := p.trace ++ [Event.dlopen dllPath]
    match rt.dlopen dllPath with
    | none => (false, { p with trace := t })
    | some (handle, so) =>
      let lib : KfbLibrary :=
        { p.g_kfb_lib with
          handle := some handle
          InitImageFile := so.InitImageFileFunc
          GetHeaderInfo := so.GetHeaderInfoFunc
          GetImageStream := so.GetImageStreamFunc
          GetImageDataRoi := so.GetImageDataRoiFunc
          UnInitImageFile := so.UnInitImageFileFunc
          DeleteImageData := so.DeleteImageDataFunc
          GetThumbnailImage := so.GetThumnailImageFunc
          GetPreviewImage := so.GetPriviewInfoFunc
          GetLabelImage := so.GetLableInfoFunc }
      if lib.InitImageFile.isNone || lib.GetHeaderInfo.isNone || lib.UnInitImageFile.isNone then
        (false, { g_kfb_lib := { lib with handle := none }, trace := t ++ [Event.dlclose handle] })
      else
        (true, { g_kfb_lib := { lib with initialized := true }, trace := t })

/-- The function `kfbslide_cleanup`. -/
def kfbslide_cleanup (p : Process) : Process :=
  let t :=
    match p.g_kfb_lib.handle with
    | some handle => p.trace ++ [Event.dlclose handle]
    | none => p.trace
  { g_kfb_lib := KfbLibrary.new, trace := t }

/-- The function `kfbslide_is_initialized`. -/
def kfbslide_is_initialized (p : Process) : Bool :=
  p.g_kfb_lib.initialized

/-- The value of `static_cast<int>(log(m) / log(2))` for an `int` `m`. For `m ≥ 1` it
is the integer part of the quotient; `Nat.log 2` computes it (see
`ilog2_eq_floor_logb`). For `m ≤ 0` the quotient is `-inf` or NaN and the
conversion is out of range; the x86-64 conversion yields `INT_MIN`. -/
def ilog2 (m : Int) : Int :=
  if 1 ≤ m then (Nat.log 2 m.toNat : Int) else -2147483648

/-- The assignments of `kfbslide_open` that fill the handle from the header
(properties, `scanScale`, `height`, `width`, `maxLevel`). -/
def ImgHandle.fromHeader (rt : Runtime) (s : ImgHandle) (headerInfo : HeaderInfoStruct) :
    ImgHandle :=
  let props := mapAssign s.properties "openslide.mpp-x" (rt.to_string_CapRes headerInfo.CapRes)
  let props := mapAssign props "openslide.mpp-t" (rt.to_string_CapRes headerInfo.CapRes)
  let props := mapAssign props "openslide.vendor" "Kfbio"
  let props := mapAssign props "scanScale" (toString headerInfo.ScanScale)
  { s with
    properties := props
    scanScale := headerInfo.ScanScale
    height := headerInfo.Height
    width := headerInfo.Width
    maxLevel := min 6 (ilog2 (max headerInfo.Height headerInfo.Width)) }

/-- The function `kfbslide_open`, given the address `imgStruct` that `new ImageInfoStruct`
returns. The outer `none` is a call through a null function pointer
(`initialized` set without the mandatory entries); the inner option is the
returned `ImgHandle*`. -/
def kfbslide_open (rt : Runtime) (p : Process) (imgStruct : Ptr) (filename : String) :
    Option (Option ImgHandle × Process) :=
  if !p.g_kfb_lib.initialized then some (none, p)
  else
    let s := ImgHandle.new imgStruct
    match p.g_kfb_lib.InitImageFile with
    | none => none
    | some initImageFile =>
      let ok := initImageFile p.trace s.imgStruct filename
      let t1 := p.trace ++ [Event.InitImageFile s.imgStruct filename]
      if !ok then
        some (none, { p with trace := ImgHandle.destroy p.g_kfb_lib s t1 })
      else
        let s := { s with isInitialized := true }
        match p.g_kfb_lib.GetHeaderInfo with
        | none => none
        | some getHeaderInfo =>
          let r := getHeaderInfo t1 s.imgStruct
          let headerInfo := r.2
          let t2 := t1 ++ [Event.GetHeaderInfo s.imgStruct]
          if r.1 = 0 then
            some (none, { p with trace := ImgHandle.destroy p.g_kfb_lib s t2 })
          else
            let s := ImgHandle.fromHeader rt s headerInfo
            let r := load_associated_images p.g_kfb_lib s t2
            some (some r.1, { p with trace := r.2 })

/-- The header that the vendor reports to `kfbslide_open` through `getHeaderInfo`
(the call made right after `InitImageFile`). -/
def reportedHeader (getHeaderInfo : DLLGetHeaderInfoFunc) (p : Process) (imgStruct : Ptr)
    (filename : String) : HeaderInfoStruct :=
  (getHeaderInfo (p.trace ++ [Event.InitImageFile imgStruct filename]) imgStruct).2

/-- The function `kfbslide_open_with_lib`. -/
def kfbslide_open_with_lib (rt : Runtime) (p : Process) (imgStruct : Ptr)
    (dllPath filename : String) : Option (Option ImgHandle × Process) :=
  if !p.g_kfb_lib.initialized then
    let r := kfbslide_init rt p dllPath
    if !r.1 then some (none, r.2) else kfbslide_open rt r.2 imgStruct filename
  else kfbslide_open rt p imgStruct filename

/-- The function `kfbslide_close`. -/
def kfbslide_close (p : Process) (s : Option ImgHandle) : Process :=
  match s with
  | none => p
  | some h => { p with trace := ImgHandle.destroy p.g_kfb_lib h p.trace }

/-- The function `kfbslide_detect_vendor`. -/
def kfbslide_detect_vendor (_ : Option String) : String := "kfbio"

/-- The function `kfbslide_property_value`; `none` is `nullptr`. -/
def kfbslide_property_value (preader : Option ImgHandle) (attribute_name : Option String) :
    Option String :=
  match preader, attribute_name with
  | some h, some n => mapFind h.properties n
  | _, _ => none

/-- The function `kfbslide_property_names` (the entries before the terminating null). -/
def kfbslide_property_names (_ : Option ImgHandle) : List String :=
  ["openslide.mpp-x", "openslide.mpp-t", "openslide.vendor", "scanScale"]

/-- The value of `1LL << n` for `0 ≤ n ≤ 62`. -/
def shl1 (n : Int) : Int := ((1 <<< n.toNat : Nat) : Int)

/-- The function `kfbslide_get_level_downsample`. -/
def kfbslide_get_level_downsample (s : Option ImgHandle) (level : Int) : ℚ :=
  match s with
  | none => 0
  | some h => if level < 0 ∨ level ≥ h.maxLevel then 0 else (shl1 level : ℚ)

/-- The loop of `kfbslide_get_best_level_for_downsample`, entered with loop variable
`i`; `fuel` bounds the number of iterations still to run. -/
def bestLevelLoop (maxLevel : Int) (downsample : ℚ) : Nat → Int → Int
  | 0, _ => maxLevel - 1
  | fuel + 1, i =>
    if i < maxLevel then
      if (shl1 (i + 1) : ℚ) > downsample then i
      else bestLevelLoop maxLevel downsample fuel (i + 1)
    else maxLevel - 1

/-- The function `kfbslide_get_best_level_for_downsample`. The loop runs at most
`maxLevel` times. -/
def kfbslide_get_best_level_for_downsample (s : Option ImgHandle) (downsample : ℚ) : Int :=
  match s with
  | none => 0
  | some h =>
    if downsample < 1 then 0
    else bestLevelLoop h.maxLevel downsample h.maxLevel.toNat 0

/-- The function `kfbslide_get_level_count`. -/
def kfbslide_get_level_count (s : Option ImgHandle) : Int :=
  match s with
  | some h => h.maxLevel
  | none => 0

/-- Return value and final contents of the two output cells of
`kfbslide_get_level_dimensions`. -/
structure DimResult where
  ret : Int
  width : Option Int
  height : Option Int
  deriving DecidableEq

/-- The function `kfbslide_get_level_dimensions`; `width` and `height` are the output
pointers with the current contents of their cells. -/
def kfbslide_get_level_dimensions (s : Option ImgHandle) (level : Int)
    (width height : Option Int) : DimResult :=
  match s, width, height with
  | some h, some _, some _ =>
    if level < 0 ∨ level ≥ h.maxLevel then { ret := 0, width := width, height := height }
    else
      let w := h.width >>> level.toNat
      let ht := h.height >>> level.toNat
      { ret := ht, width := some w, height := some ht }
  | _, _, _ => { ret := 0, width := width, height := height }

/-- The function `kfbslide_get_level0_dimensions`. -/
def kfbslide_get_level0_dimensions (s : Option ImgHandle) (width height : Option Int) :
    DimResult :=
  kfbslide_get_level_dimensions s 0 width height

/-- The conversion of an `int` to `size_t` (64 bits). -/
def toSizeT (n : Int) : Nat := (n % 18446744073709551616).toNat

/-- The function `kfbslide_read_associated_image`; the result is the address returned by
`malloc`, or `none` for `nullptr`. -/
def kfbslide_read_associated_image (rt : Runtime) (s : Option ImgHandle)
    (name : Option String) : Option Ptr :=
  match s, name with
  | some h, some n =>
    match mapFind h.assoImages n with
    | some img => if img.buf.isSome then rt.malloc (toSizeT img.nBytes) else none
    | none => none
  | _, _ => none

/-- Final contents of the three output cells of
`kfbslide_get_associated_image_dimensions`. -/
structure AssoDims where
  width : Option Int
  height : Option Int
  nBytes : Option Int
  deriving DecidableEq

/-- The function `kfbslide_get_associated_image_dimensions`. -/
def kfbslide_get_associated_image_dimensions (s : Option ImgHandle) (name : Option String)
    (width height nBytes : Option Int) : AssoDims :=
  match width, height, nBytes with
  | some _, some _, some _ =>
    match s, name with
    | some h, some n =>
      match mapFind h.assoImages n with
      | some img =>
        { width := some img.width, height := some img.height, nBytes := some img.nBytes }
      | none => { width := some 0, height := some 0, nBytes := some 0 }
    | _, _ => { width := some 0, height := some 0, nBytes := some 0 }
  | _, _, _ => { width := width, height := height, nBytes := nBytes }

/-- The function `kfbslide_get_associated_image_names`; `none` is `nullptr`. -/
def kfbslide_get_associated_image_names (s : Option ImgHandle) : Option (List String) :=
  match s with
  | none => none
  | some h => h.assoNames

/-- The conversion `static_cast<int>(q)` of a double: truncation toward zero. -/
def truncToInt (q : ℚ) : Int := if 0 ≤ q then ⌊q⌋ else ⌈q⌉

/-- Rounding to the nearest integer, ties to even. -/
def roundHalfEven (q : ℚ) : Int :=
  let f := ⌊q⌋
  if q - f < 1 / 2 then f
  else if 1 / 2 < q - f then f + 1
  else if f % 2 = 0 then f else f + 1

/-- The narrowing of a double to `float` (binary32, round to nearest even, 24
significant bits), for values in the normal range of `float`. -/
def toFloat (q : ℚ) : ℚ :=
  if q = 0 then 0
  else
    let ulp : ℚ := (2 : ℚ) ^ (Int.log 2 |q| - 23)
    (roundHalfEven (q / ulp) : ℚ) * ulp

/-- The conversion of a level-0 coordinate to the coordinate of `level`, as both
`kfbslide_read_region` and `kfbslide_get_image_roi_stream` compute it:
`static_cast<int>(x / downsample)` with
`downsample = kfbslide_get_level_downsample(s, level)`. -/
def levelCoord (s : Option ImgHandle) (level x : Int) : Int :=
  truncToInt ((x : ℚ) / kfbslide_get_level_downsample s level)

/-- The scale handed to the vendor: `float fScale = s->scanScale / downsample`. -/
def levelScale (h : ImgHandle) (level : Int) : ℚ :=
  toFloat ((h.scanScale : ℚ) / kfbslide_get_level_downsample (some h) level)

/-- Return value, final contents of the cells behind `nBytes` and `buf`, and the
process state after `kfbslide_read_region` / `kfbslide_get_image_roi_stream`. -/
structure ReadResult where
  ret : Bool
  nBytes : Option Int
  buf : Option (Option Ptr)
  proc : Process

/-- The function `kfbslide_read_region`. -/
def kfbslide_read_region (p : Process) (s : Option ImgHandle) (level x y : Int)
    (nBytes : Option Int) (buf : Option (Option Ptr)) : ReadResult :=
  match s, nBytes, buf with
  | some h, some nb, some b =>
    if level < 0 ∨ level ≥ h.maxLevel then { ret := false, nBytes := nBytes, buf := buf, proc := p }
    else
      match p.g_kfb_lib.GetImageStream with
      | none => { ret := false, nBytes := nBytes, buf := buf, proc := p }
      | some getImageStream =>
        let level_x := levelCoord s level x
        let level_y := levelCoord s level y
        let fScale := levelScale h level
        let out := getImageStream p.trace h.imgStruct fScale level_x level_y
          { nBytes := nb, buf := b }
        { ret := decide (out.nBytes > 0)
          nBytes := some out.nBytes
          buf := some out.buf
          proc := { p with
            trace := p.trace ++ [Event.GetImageStream h.imgStruct fScale level_x level_y] } }
  | _, _, _ => { ret := false, nBytes := nBytes, buf := buf, proc := p }

/-- The function `kfbslide_get_image_roi_stream`. -/
def kfbslide_get_image_roi_stream (p : Process) (s : Option ImgHandle)
    (level x y width height : Int) (nBytes : Option Int) (buf : Option (Option Ptr)) :
    ReadResult :=
  match s, nBytes, buf with
  | some h, some nb, some b =>
    if level < 0 ∨ level ≥ h.maxLevel then { ret := false, nBytes := nBytes, buf := buf, proc := p }
    else
      match p.g_kfb_lib.GetImageDataRoi with
      | none => { ret := false, nBytes := nBytes, buf := buf, proc := p }
      | some getImageDataRoi =>
        let level_x := levelCoord s level x
        let level_y := levelCoord s level y
        let fScale := levelScale h level
        let r := getImageDataRoi p.trace h.imgStruct fScale level_x level_y width height
          { nBytes := nb, buf := b } true
        { ret := r.1
          nBytes := some r.2.nBytes
          buf := some r.2.buf
          proc := { p with
            trace := p.trace ++
              [Event.GetImageDataRoi h.imgStruct fScale level_x level_y width height true] } }
  | _, _, _ => { ret := false, nBytes := nBytes, buf := buf, proc := p }

/-- The function `kfbslide_buffer_free`. -/
def kfbslide_buffer_free (p : Process) (buf : Option Ptr) : Bool × Process :=
  match buf with
  | none => (false, p)
  | some a => (true, { p with trace := p.trace ++ [Event.free a] })

/-- The function `kfbslide_region_buffer_free`. -/
def kfbslide_region_buffer_free (p : Process) (buf : Option Ptr) : Bool × Process :=
  match buf with
  | none => (false, p)
  | some a =>
    if p.g_kfb_lib.DeleteImageData.isSome then
      (true, { p with trace := p.trace ++ [Event.DeleteImageData a] })
    else (true, { p with trace := p.trace ++ [Event.free a] })

/-! ## Sample environment

A vendor library that exports all nine entry points and reports a
10000 x 8000 slide scanned at scale 20, used to run the definitions on
concrete inputs. -/

def sampleHeader : HeaderInfoStruct where
  Height := 8000
  Width := 10000
  ScanScale := 20
  SpendTime := 0
  ScanTime := 0
  CapRes := 1 / 4
  BlockSize := 256

/-- The sample `InitImageFileFunc`: every file opens except `missing.kfb`. -/
def sampleInitImageFile : DLLInitImageFileFunc :=
  fun _ _ filename => filename != "missing.kfb"

/-- The sample `GetHeaderInfoFunc`: it fails (returns 0) for the file `truncated.kfb`,
recognised as the file of the preceding `InitImageFile` call. -/
def sampleGetHeaderInfo : DLLGetHeaderInfoFunc :=
  fun t _ =>
    match t.getLast? with
    | some (Event.InitImageFile _ filename) =>
      (if filename = "truncated.kfb" then 0 else 1, sampleHeader)
    | _ => (1, sampleHeader)

def sampleObject : SharedObject where
  InitImageFileFunc := some sampleInitImageFile
  GetHeaderInfoFunc := some sampleGetHeaderInfo
  GetImageStreamFunc := some (fun _ _ _ _ _ _ => { nBytes := 4096, buf := some 500 })
  GetImageDataRoiFunc := some (fun _ _ _ _ _ _ _ _ _ => (true, { nBytes := 4096, buf := some 501 }))
  UnInitImageFileFunc := some (fun _ _ => 1)
  DeleteImageDataFunc := some (fun _ _ => 1)
  GetThumnailImageFunc := some (fun _ _ _ => (true, { buf := some 101, ret0 := 300, ret1 := 10, ret2 := 10 }))
  GetPriviewInfoFunc := some (fun _ _ out => (false, out))
  GetLableInfoFunc := some (fun _ _ _ => (true, { buf := some 100, ret0 := 48, ret1 := 4, ret2 := 4 }))

def sampleRuntime : Runtime where
  dlopen := fun path => if path = "libImageOperationLib.so" then some (4096, sampleObject) else none
  malloc := fun n => if n = 0 then none else some 9000
  to_string_CapRes := fun _ => "0.250000"

/-- The process before any call: `g_kfb_lib` as constructed, no call made. -/
def Process.start : Process where
  g_kfb_lib := KfbLibrary.new
  trace := []

/-- The process after `kfbslide_init("libImageOperationLib.so")` in the sample
environment. -/
def sampleProcess : Process :=
  (kfbslide_init sampleRuntime Process.start "libImageOperationLib.so").2

/-- The handle that `kfbslide_open("slide.kfb")` builds in `sampleProcess`. -/
def sampleHandle : ImgHandle where
  imgStruct := 7
  isInitialized := true
  maxLevel := 6
  scanScale := 20
  width := 10000
  height := 8000
  properties :=
    [("scanScale", "20"), ("openslide.vendor", "Kfbio"), ("openslide.mpp-t", "0.250000"),
     ("openslide.mpp-x", "0.250000")]
  assoImages :=
    [("thumbnail", { nBytes := 300, width := 10, height := 10, buf := some 101 }),
     ("label", { nBytes := 48, width := 4, height := 4, buf := some 100 })]
  assoNames := some ["label", "thumbnail"]

/-- A vendor header like `sampleHeader` but with scan scale `2 ^ 24 + 1`. -/
def wideScaleHeader : HeaderInfoStruct :=
  { sampleHeader with ScanScale := 16777217 }

def wideScaleObject : SharedObject :=
  { sampleObject with GetHeaderInfoFunc := some (fun _ _ => (1, wideScaleHeader)) }

def wideScaleRuntime : Runtime :=
  { sampleRuntime with dlopen := fun _ => some (4096, wideScaleObject) }

def wideScaleProcess : Process :=
  (kfbslide_init wideScaleRuntime Process.start "libImageOperationLib.so").2

/-- The handle that `kfbslide_open("slide.kfb")` builds in `wideScaleProcess`. -/
def wideScaleHandle : ImgHandle :=
  { sampleHandle with
    scanScale := 16777217
    properties :=
      [("scanScale", "16777217"), ("openslide.vendor", "Kfbio"),
       ("openslide.mpp-t", "0.250000"), ("openslide.mpp-x", "0.250000")] }

/-- A vendor library like `sampleObject` for a 100 x 1 slide, whose streaming call
reports no data. -/
def flatHeader : HeaderInfoStruct :=
  { sampleHeader with Width := 100, Height := 1 }

def flatObject : SharedObject :=
  { sampleObject with
    GetHeaderInfoFunc := some (fun _ _ => (1, flatHeader))
    GetImageStreamFunc := some (fun _ _ _ _ _ _ => { nBytes := 0, buf := none }) }

def flatRuntime : Runtime :=
  { sampleRuntime with dlopen := fun _ => some (4096, flatObject) }

def flatProcess : Process :=
  (kfbslide_init flatRuntime Process.start "libImageOperationLib.so").2

/-- The handle that `kfbslide_open("slide.kfb")` builds in `flatProcess`. -/
def flatHandle : ImgHandle :=
  { sampleHandle with width := 100, height := 1 }

/-- A vendor library like `sampleObject` whose label call succeeds with a non-null
buffer and a byte count of 0. -/
def emptyLabelObject : SharedObject :=
  { sampleObject with
    GetLableInfoFunc := some (fun _ _ _ => (true, { buf := some 100, ret0 := 0, ret1 := 0, ret2 := 0 })) }

def emptyLabelRuntime : Runtime :=
  { sampleRuntime with dlopen := fun _ => some (4096, emptyLabelObject) }

def emptyLabelProcess : Process :=
  (kfbslide_init emptyLabelRuntime Process.start "libImageOperationLib.so").2

/-- The handle that `kfbslide_open("slide.kfb")` builds in `emptyLabelProcess`. -/
def emptyLabelHandle : ImgHandle :=
  { sampleHandle with
    assoImages :=
      [("thumbnail", { nBytes := 300, width := 10, height := 10, buf := some 101 }),
       ("label", { nBytes := 0, width := 0, height := 0, buf := some 100 })] }

/-- A shared object that exports everything except `GetHeaderInfoFunc`. -/
def headerlessObject : SharedObject :=
  { sampleObject with GetHeaderInfoFunc := none }

def headerlessRuntime : Runtime :=
  { sampleRuntime with dlopen := fun _ => some (4096, headerlessObject) }

/-! ## Reachable processes and call accounting -/

/-- The processes that arise from the initial one through the API. -/
inductive Reachable : Process → Prop where
  | start : Reachable Process.start
  | init (rt : Runtime) (p : Process) (dllPath : String) :
      Reachable p → Reachable (kfbslide_init rt p dllPath).2
  | cleanup (p : Process) : Reachable p → Reachable (kfbslide_cleanup p)
  | opened (rt : Runtime) (p : Process) (imgStruct : Ptr) (filename : String)
      (r : Option ImgHandle × Process) :
      Reachable p → kfbslide_open rt p imgStruct filename = some r → Reachable r.2
  | close (p : Process) (s : Option ImgHandle) : Reachable p → Reachable (kfbslide_close p s)
  | read_region (p : Process) (s : Option ImgHandle) (level x y : Int) (nBytes : Option Int)
      (buf : Option (Option Ptr)) :
      Reachable p → Reachable (kfbslide_read_region p s level x y nBytes buf).proc
  | roi (p : Process) (s : Option ImgHandle) (level x y width height : Int)
      (nBytes : Option Int) (buf : Option (Option Ptr)) :
      Reachable p →
      Reachable (kfbslide_get_image_roi_stream p s level x y width height nBytes buf).proc
  | buffer_free (p : Process) (buf : Option Ptr) :
      Reachable p → Reachable (kfbslide_buffer_free p buf).2
  | region_buffer_free (p : Process) (buf : Option Ptr) :
      Reachable p → Reachable (kfbslide_region_buffer_free p buf).2

/-- The calls made between process state `p` and a later state `q`. -/
def callsSince (p q : Process) : Trace :=
  q.trace.drop p.trace.length

/-- The number of calls of the vendor `UnInitImageFile` on context `ctx` in a trace. -/
def uninitCount (ctx : Ptr) (t : Trace) : Nat :=
  t.count (Event.UnInitImageFile ctx)

/-- The name list that `kfbslide_get_associated_image_names` exposes, empty for `nullptr`. -/
def associatedNames (s : ImgHandle) : List String :=
  (kfbslide_get_associated_image_names (some s)).getD []

/-- In a loaded backend the three mandatory entry points are present. -/
def Mandatory (p : Process) : Prop :=
  p.g_kfb_lib.initialized = true →
    p.g_kfb_lib.InitImageFile.isSome = true ∧ p.g_kfb_lib.GetHeaderInfo.isSome = true ∧
    p.g_kfb_lib.UnInitImageFile.isSome = true

/-- The trace at which `kfbslide_open` enters `load_associated_images`: the calls made
before, then `InitImageFile` and `GetHeaderInfo`. -/
def loadTrace (p : Process) (imgStruct : Ptr) (filename : String) : Trace :=
  p.trace ++ [Event.InitImageFile imgStruct filename] ++ [Event.GetHeaderInfo imgStruct]

/-- The answer of the vendor to the label call of `load_associated_images`, made at trace
`t` on context `ctx`: its return value and what it leaves in `buf`, `ret[0]`, `ret[1]`,
`ret[2]`, which are null and zero before this first call. -/
def labelAnswer (getLabel : DLLGetImageFunc) (t : Trace) (ctx : Ptr) : Bool × ImageOut :=
  getLabel t ctx { buf := none, ret0 := 0, ret1 := 0, ret2 := 0 }

/-- The answer of the vendor to the thumbnail call, which follows the label call and
receives the same four cells as the label call left them. -/
def thumbnailAnswer (getLabel getThumbnail : DLLGetImageFunc) (t : Trace) (ctx : Ptr) :
    Bool × ImageOut :=
  getThumbnail (t ++ [Event.GetLabelImage ctx]) ctx (labelAnswer getLabel t ctx).2

/-- The answer of the vendor to the preview call, which follows the thumbnail call and
receives the four cells as the thumbnail call left them. -/
def previewAnswer (getLabel getThumbnail getPreview : DLLGetImageFunc) (t : Trace) (ctx : Ptr) :
    Bool × ImageOut :=
  getPreview (t ++ [Event.GetLabelImage ctx] ++ [Event.GetThumbnailImage ctx]) ctx
    (thumbnailAnswer getLabel getThumbnail t ctx).2

/-- An answer delivers an image when the call reports success and `buf` is non-null
afterwards. -/
def delivers (r : Bool × ImageOut) : Bool := r.1 && r.2.buf.isSome

/-- The image an answer stands for: byte count `ret[0]`, width `ret[1]`, height `ret[2]`
and the buffer, when it delivers one. -/
def answerImage (r : Bool × ImageOut) : Option AssoImage :=
  if delivers r = true then
    some { nBytes := r.2.ret0, width := r.2.ret1, height := r.2.ret2, buf := r.2.buf }
  else none

/-! ## Level arithmetic -/

theorem shl1_eq (n : Int) : shl1 n = 2 ^ n.toNat := by
  simp [shl1, Nat.one_shiftLeft]

theorem shl1_one : shl1 1 = 2 := by decide

theorem shl1_two : shl1 2 = 4 := by decide

theorem shl1_three : shl1 3 = 8 := by decide

theorem shl1_four : shl1 4 = 16 := by decide

theorem shl1_five : shl1 5 = 32 := by decide

theorem shl1_six : shl1 6 = 64 := by decide

theorem shl1_cast (n : Int) : ((shl1 n : Int) : ℚ) = (2 : ℚ) ^ n.toNat := by
  simp [shl1_eq]

/-- The integer part of `log(m) / log(2)`, taken over the reals, is what `ilog2`
computes for `m ≥ 1`. -/
theorem ilog2_eq_floor_logb (m : Int) (hm : 1 ≤ m) :
    ilog2 m = ⌊Real.logb 2 (m : ℝ)⌋ := by
  obtain ⟨n, rfl⟩ := Int.eq_ofNat_of_zero_le (by omega : 0 ≤ m)
  have h := @Real.floor_logb_natCast 2 (n : ℝ) (by positivity)
  rw [Int.log_natCast] at h
  simp only [ilog2, hm, if_true, Int.toNat_ofNat, Int.cast_natCast]
  exact_mod_cast h.symm

theorem ilog2_sample : ilog2 10000 = 13 := by
  have h : Nat.log 2 10000 = 13 := by norm_num [Nat.log_eq_iff]
  simp [ilog2, h]

theorem load_associated_images_maxLevel (lib : KfbLibrary) (s : ImgHandle) (t : Trace) :
    (load_associated_images lib s t).1.maxLevel = s.maxLevel := by
  unfold load_associated_images
  split
  · simp only [loadOne]
    repeat' split
    all_goals rfl
  · rfl

theorem sample_open :
    kfbslide_open sampleRuntime sampleProcess 7 "slide.kfb" =
      some (some sampleHandle,
        { sampleProcess with
          trace := sampleProcess.trace ++
            [Event.InitImageFile 7 "slide.kfb", Event.GetHeaderInfo 7, Event.GetLabelImage 7,
             Event.GetThumbnailImage 7, Event.GetPreviewImage 7] }) := by
  simp [kfbslide_open, sampleProcess, kfbslide_init, sampleRuntime, sampleObject, Process.start,
    KfbLibrary.new, ImgHandle.new, ImgHandle.fromHeader, load_associated_images, loadOne,
    mapAssign, sampleHeader, sampleHandle, ilog2_sample, sampleInitImageFile, sampleGetHeaderInfo]
  decide

/-- A handle returned by `kfbslide_open` is the header-filled handle after
`load_associated_images`. -/
theorem kfbslide_open_handle {rt : Runtime} {p : Process} {imgStruct : Ptr} {filename : String}
    {getHeaderInfo : DLLGetHeaderInfoFunc} {s : ImgHandle} {p' : Process}
    (hcap : p.g_kfb_lib.GetHeaderInfo = some getHeaderInfo)
    (hopen : kfbslide_open rt p imgStruct filename = some (some s, p')) :
    s = (load_associated_images p.g_kfb_lib
          (ImgHandle.fromHeader rt { ImgHandle.new imgStruct with isInitialized := true }
            (reportedHeader getHeaderInfo p imgStruct filename))
          (p.trace ++ [Event.InitImageFile imgStruct filename] ++
            [Event.GetHeaderInfo imgStruct])).1 := by
  unfold kfbslide_open at hopen
  dsimp only at hopen
  split at hopen
  · simp at hopen
  · split at hopen
    · simp at hopen
    · split at hopen
      · simp at hopen
      · split at hopen
        · simp at hopen
        · rename_i g hg
          rw [hcap] at hg
          cases hg
          split at hopen
          · simp at hopen
          · simp only [Option.some.injEq, Prod.mk.injEq] at hopen
            exact hopen.1.symm

/-- A handle returned by `kfbslide_open` has at most six levels, so `1LL << level` and
`1LL << (i + 1)` never leave the range of `long long` on it. -/
theorem kfbslide_open_maxLevel_le {rt : Runtime} {p : Process} {imgStruct : Ptr}
    {filename : String} {getHeaderInfo : DLLGetHeaderInfoFunc} {s : ImgHandle} {p' : Process}
    (hcap : p.g_kfb_lib.GetHeaderInfo = some getHeaderInfo)
    (hopen : kfbslide_open rt p imgStruct filename = some (some s, p')) :
    s.maxLevel ≤ 6 := by
  rw [kfbslide_open_handle hcap hopen, load_associated_images_maxLevel]
  exact min_le_left _ _

theorem truncToInt_div (x : Int) (d : Nat) (hd : 0 < d) :
    truncToInt ((x : ℚ) / (d : ℚ)) = Int.tdiv x d := by
  have hdq : (0 : ℚ) < (d : ℚ) := by exact_mod_cast hd
  unfold truncToInt
  rcases le_or_lt 0 x with hx | hx
  · have h0 : (0 : ℚ) ≤ (x : ℚ) / d := div_nonneg (by exact_mod_cast hx) hdq.le
    rw [if_pos h0, Rat.floor_intCast_div_natCast, Int.tdiv_eq_ediv hx (by positivity)]
  · have h0 : ¬ (0 : ℚ) ≤ (x : ℚ) / d := by
      have : (x : ℚ) / d < 0 := div_neg_of_neg_of_pos (by exact_mod_cast hx) hdq
      linarith
    have hneg : (x : ℚ) / d = -(((-x : Int) : ℚ) / d) := by
      push_cast
      ring
    rw [if_neg h0, hneg, Int.ceil_neg, Rat.floor_intCast_div_natCast,
      ← Int.tdiv_eq_ediv (by omega) (by positivity), Int.neg_tdiv, neg_neg]

theorem tdiv_mul_close (x d : Int) (hd : 0 < d) : |Int.tdiv x d * d - x| ≤ d - 1 := by
  rcases le_or_lt 0 x with hx | hx
  · rw [Int.tdiv_eq_ediv hx hd.le]
    have h1 := Int.emod_nonneg x hd.ne.symm
    have h2 := Int.emod_lt_of_pos x hd
    have h3 := Int.ediv_add_emod x d
    rw [abs_le]
    constructor <;> nlinarith
  · have hx2 : 0 ≤ -x := by omega
    have e : Int.tdiv x d = -((-x) / d) := by
      rw [← Int.tdiv_eq_ediv hx2 hd.le, Int.neg_tdiv, neg_neg]
    rw [e]
    have h1 := Int.emod_nonneg (-x) hd.ne.symm
    have h2 := Int.emod_lt_of_pos (-x) hd
    have h3 := Int.ediv_add_emod (-x) d
    rw [abs_le]
    constructor <;> nlinarith

theorem downsample_in_range (h : ImgHandle) (level : Int) (h0 : 0 ≤ level)
    (h1 : level < h.maxLevel) :
    kfbslide_get_level_downsample (some h) level = (2 : ℚ) ^ level.toNat := by
  have hc : ¬ (level < 0 ∨ level ≥ h.maxLevel) := by omega
  simp only [kfbslide_get_level_downsample, hc, if_false, shl1_cast]

theorem levelCoord_in_range (h : ImgHandle) (level x : Int) (h0 : 0 ≤ level)
    (h1 : level < h.maxLevel) :
    levelCoord (some h) level x = Int.tdiv x (2 ^ level.toNat) := by
  have e : (2 : ℚ) ^ level.toNat = ((2 ^ level.toNat : Nat) : ℚ) := by push_cast; rfl
  rw [levelCoord, downsample_in_range h level h0 h1, e, truncToInt_div x _ (by positivity)]
  norm_cast

theorem bestLevelLoop_exit (maxLevel : Int) (target : ℚ) (fuel : Nat) (i : Int)
    (hi : ¬ i < maxLevel) : bestLevelLoop maxLevel target fuel i = maxLevel - 1 := by
  cases fuel with
  | zero => rfl
  | succ n => simp [bestLevelLoop, hi]

/-- The loop has enough fuel: any two budgets of at least `maxLevel - i` iterations give
the same result, so the budget `maxLevel` used by
`kfbslide_get_best_level_for_downsample` never cuts the loop short. -/
theorem bestLevelLoop_fuel (maxLevel : Int) (target : ℚ) :
    ∀ (f1 f2 : Nat) (i : Int), (maxLevel - i).toNat ≤ f1 → (maxLevel - i).toNat ≤ f2 →
      bestLevelLoop maxLevel target f1 i = bestLevelLoop maxLevel target f2 i := by
  intro f1
  induction f1 with
  | zero =>
    intro f2 i h1 _
    have hi : ¬ i < maxLevel := by omega
    rw [bestLevelLoop_exit _ _ _ _ hi, bestLevelLoop_exit _ _ _ _ hi]
  | succ n ih =>
    intro f2 i h1 h2
    by_cases hi : i < maxLevel
    · cases f2 with
      | zero => omega
      | succ m =>
        simp only [bestLevelLoop, hi, if_true]
        split
        · rfl
        · exact ih m (i + 1) (by omega) (by omega)
    · rw [bestLevelLoop_exit _ _ _ _ hi, bestLevelLoop_exit _ _ _ _ hi]

/-- The loop, started at `i` with at least `maxLevel - i` iterations of fuel and
`2 ^ i ≤ target`, returns the last level whose downsample is at most `target`. -/
theorem bestLevelLoop_spec (maxLevel : Int) (target : ℚ) :
    ∀ (fuel : Nat) (i : Int), 0 ≤ i → i < maxLevel → (maxLevel - i).toNat ≤ fuel →
      (2 : ℚ) ^ i.toNat ≤ target →
      i ≤ bestLevelLoop maxLevel target fuel i ∧
      bestLevelLoop maxLevel target fuel i < maxLevel ∧
      (2 : ℚ) ^ (bestLevelLoop maxLevel target fuel i).toNat ≤ target ∧
      ∀ j : Int, bestLevelLoop maxLevel target fuel i < j → j < maxLevel →
        target < (2 : ℚ) ^ j.toNat := by
  intro fuel
  induction fuel with
  | zero =>
    intro i _ hlt hfuel _
    omega
  | succ n ih =>
    intro i h0 hlt hfuel hpow
    have hnext : ((i + 1).toNat) = i.toNat + 1 := by omega
    by_cases hcmp : (shl1 (i + 1) : ℚ) > target
    · have hres : bestLevelLoop maxLevel target (n + 1) i = i := by
        simp [bestLevelLoop, hlt, hcmp]
      rw [hres]
      refine ⟨le_refl _, hlt, hpow, ?_⟩
      intro j hj _
      rw [shl1_cast] at hcmp
      have hle : (i + 1).toNat ≤ j.toNat := by omega
      calc target < (2 : ℚ) ^ (i + 1).toNat := hcmp
        _ ≤ (2 : ℚ) ^ j.toNat := pow_le_pow_right₀ (by norm_num) hle
    · have hres : bestLevelLoop maxLevel target (n + 1) i =
          bestLevelLoop maxLevel target n (i + 1) := by
        simp [bestLevelLoop, hlt, hcmp]
      rw [hres]
      rw [shl1_cast] at hcmp
      have hpow2 : (2 : ℚ) ^ (i + 1).toNat ≤ target := not_lt.mp hcmp
      by_cases hlast : i + 1 < maxLevel
      · obtain ⟨a, b, c, d⟩ := ih (i + 1) (by omega) hlast (by omega) hpow2
        exact ⟨by omega, b, c, d⟩
      · rw [bestLevelLoop_exit maxLevel target n (i + 1) hlast]
        have hi : maxLevel - 1 = i := by omega
        rw [hi]
        refine ⟨le_refl _, hlt, hpow, ?_⟩
        intro j hj hj2
        omega

/-! ## Claims on the level model -/

/-- C1: for every successful `kfbslide_open` whose vendor header reports a width and
a height with `max(width, height) ≥ 1`, the level count stored in the handle, which
`kfbslide_get_level_count` returns, equals `min(6, floor(log2(max(width, height))))`;
a 10000 x 8000 header gives 6. -/
theorem open_level_count (rt : Runtime) (p : Process) (imgStruct : Ptr) (filename : String)
    (getHeaderInfo : DLLGetHeaderInfoFunc) (s : ImgHandle) (p' : Process)
    (hcap : p.g_kfb_lib.GetHeaderInfo = some getHeaderInfo)
    (hopen : kfbslide_open rt p imgStruct filename = some (some s, p'))
    (hdim : 1 ≤ max (reportedHeader getHeaderInfo p imgStruct filename).Width
      (reportedHeader getHeaderInfo p imgStruct filename).Height) :
    s.maxLevel = min 6 ⌊Real.logb 2
        ((max (reportedHeader getHeaderInfo p imgStruct filename).Width
          (reportedHeader getHeaderInfo p imgStruct filename).Height : Int) : ℝ)⌋ ∧
    kfbslide_get_level_count (some s) = min 6 ⌊Real.logb 2
        ((max (reportedHeader getHeaderInfo p imgStruct filename).Width
          (reportedHeader getHeaderInfo p imgStruct filename).Height : Int) : ℝ)⌋ ∧
    ((reportedHeader getHeaderInfo p imgStruct filename).Width = 10000 →
      (reportedHeader getHeaderInfo p imgStruct filename).Height = 8000 →
      kfbslide_get_level_count (some s) = 6) := by
  have hs := kfbslide_open_handle hcap hopen
  have hml : s.maxLevel = min 6 (ilog2 (max (reportedHeader getHeaderInfo p imgStruct filename).Width
      (reportedHeader getHeaderInfo p imgStruct filename).Height)) := by
    rw [hs, load_associated_images_maxLevel, max_comm]
    rfl
  have hfl : s.maxLevel = min 6 ⌊Real.logb 2
      ((max (reportedHeader getHeaderInfo p imgStruct filename).Width
        (reportedHeader getHeaderInfo p imgStruct filename).Height : Int) : ℝ)⌋ := by
    rw [hml, ilog2_eq_floor_logb _ hdim]
  refine ⟨hfl, hfl, ?_⟩
  · intro hw hh
    show s.maxLevel = 6
    rw [hml, hw, hh]
    have e : max (10000 : Int) 8000 = 10000 := by decide
    rw [e, ilog2_sample]
    decide

theorem open_level_count_witness :
    sampleProcess.g_kfb_lib.GetHeaderInfo = some sampleGetHeaderInfo ∧
    kfbslide_open sampleRuntime sampleProcess 7 "slide.kfb" =
      some (some sampleHandle,
        { sampleProcess with
          trace := sampleProcess.trace ++
            [Event.InitImageFile 7 "slide.kfb", Event.GetHeaderInfo 7, Event.GetLabelImage 7,
             Event.GetThumbnailImage 7, Event.GetPreviewImage 7] }) ∧
    1 ≤ max (reportedHeader sampleGetHeaderInfo sampleProcess 7 "slide.kfb").Width
      (reportedHeader sampleGetHeaderInfo sampleProcess 7 "slide.kfb").Height ∧
    kfbslide_get_level_count (some sampleHandle) = 6 :=
  ⟨rfl, sample_open, by decide,
    (open_level_count sampleRuntime sampleProcess 7 "slide.kfb" sampleGetHeaderInfo
      sampleHandle _ rfl sample_open (by decide)).2.2 rfl rfl⟩

/-- C2: for every handle and every level, if `0 ≤ level < levelCount` then
`kfbslide_get_level_downsample` returns `2 ^ level` and `kfbslide_get_level_dimensions`
writes `(width >> level, height >> level)` to its two outputs (10000 x 8000 at level 1
gives (5000, 4000), and the downsample of level 5 is 32); if `level < 0` or
`level ≥ levelCount` then the downsample is 0 and `kfbslide_get_level_dimensions` returns 0
and leaves both outputs as they were. -/
theorem level_downsample_and_dimensions (h : ImgHandle) (level : Int) :
    (0 ≤ level → level < kfbslide_get_level_count (some h) →
      kfbslide_get_level_downsample (some h) level = (2 : ℚ) ^ level.toNat ∧
      ∀ w0 h0 : Int,
        (kfbslide_get_level_dimensions (some h) level (some w0) (some h0)).width =
          some (h.width >>> level.toNat) ∧
        (kfbslide_get_level_dimensions (some h) level (some w0) (some h0)).height =
          some (h.height >>> level.toNat) ∧
        h.width >>> level.toNat = h.width / 2 ^ level.toNat ∧
        h.height >>> level.toNat = h.height / 2 ^ level.toNat) ∧
    (level < 0 ∨ kfbslide_get_level_count (some h) ≤ level →
      kfbslide_get_level_downsample (some h) level = 0 ∧
      ∀ width height : Option Int,
        (kfbslide_get_level_dimensions (some h) level width height).ret = 0 ∧
        (kfbslide_get_level_dimensions (some h) level width height).width = width ∧
        (kfbslide_get_level_dimensions (some h) level width height).height = height) ∧
    (h.width = 10000 → h.height = 8000 → kfbslide_get_level_count (some h) = 6 →
      kfbslide_get_level_downsample (some h) 5 = 32 ∧
      ∀ w0 h0 : Int,
        (kfbslide_get_level_dimensions (some h) 1 (some w0) (some h0)).width = some 5000 ∧
        (kfbslide_get_level_dimensions (some h) 1 (some w0) (some h0)).height = some 4000) := by
  refine ⟨?_, ?_, ?_⟩
  · intro h0 h1
    have hc : ¬ (level < 0 ∨ level ≥ h.maxLevel) := by
      simp only [kfbslide_get_level_count] at h1
      omega
    refine ⟨downsample_in_range h level h0 h1, ?_⟩
    intro w0 ht0
    simp only [kfbslide_get_level_dimensions, hc, if_false, Int.shiftRight_eq_div_pow]
    simp
  · intro hout
    have hc : level < 0 ∨ level ≥ h.maxLevel := by
      simp only [kfbslide_get_level_count] at hout
      omega
    refine ⟨by simp [kfbslide_get_level_downsample, hc], ?_⟩
    intro width height
    cases width <;> cases height <;> simp [kfbslide_get_level_dimensions, hc]
  · intro hw hh hn
    simp only [kfbslide_get_level_count] at hn
    refine ⟨?_, ?_⟩
    · have e5 : (5 : Int).toNat = 5 := rfl
      rw [downsample_in_range h 5 (by decide) (by omega), e5]
      norm_num
    · intro w0 ht0
      have hc : ¬ ((1 : Int) < 0 ∨ (1 : Int) ≥ h.maxLevel) := by omega
      simp only [kfbslide_get_level_dimensions, hc, if_false, hw, hh]
      decide

theorem level_downsample_and_dimensions_witness :
    (0 : Int) ≤ 1 ∧ (1 : Int) < kfbslide_get_level_count (some sampleHandle) ∧
    kfbslide_get_level_downsample (some sampleHandle) 1 = (2 : ℚ) ^ (1 : Int).toNat ∧
    (kfbslide_get_level_dimensions (some sampleHandle) 1 (some 0) (some 0)).width = some 5000 ∧
    (kfbslide_get_level_dimensions (some sampleHandle) 1 (some 0) (some 0)).height = some 4000 ∧
    kfbslide_get_level_downsample (some sampleHandle) 6 = 0 ∧
    (kfbslide_get_level_dimensions (some sampleHandle) 6 (some 11) (some 12)).ret = 0 ∧
    (kfbslide_get_level_dimensions (some sampleHandle) 6 (some 11) (some 12)).width = some 11 ∧
    (kfbslide_get_level_dimensions (some sampleHandle) 6 (some 11) (some 12)).height = some 12 :=
  have t := level_downsample_and_dimensions sampleHandle 1
  have u := level_downsample_and_dimensions sampleHandle 6
  ⟨by decide, by decide, (t.1 (by decide) (by decide)).1,
    ((t.2.2 rfl rfl rfl).2 0 0).1, ((t.2.2 rfl rfl rfl).2 0 0).2,
    (u.2.1 (Or.inr (by decide))).1,
    ((u.2.1 (Or.inr (by decide))).2 (some 11) (some 12)).1,
    ((u.2.1 (Or.inr (by decide))).2 (some 11) (some 12)).2.1,
    ((u.2.1 (Or.inr (by decide))).2 (some 11) (some 12)).2.2⟩

/-- C3: `kfbslide_get_best_level_for_downsample` returns the coarsest level that does not
overshoot the target: for every handle with `levelCount ≥ 1` and every target `≥ 1` the
returned level `L` satisfies `0 ≤ L < levelCount`, `2 ^ L ≤ target`, and every level `j`
with `L < j < levelCount` has `2 ^ j > target`; for every target `< 1` it returns 0. With
`levelCount = 6`: target 2 gives 1, target 2.001 gives 1, target 4 gives 2. -/
theorem best_level_coarsest (h : ImgHandle) (target : ℚ) :
    (1 ≤ kfbslide_get_level_count (some h) → 1 ≤ target →
      0 ≤ kfbslide_get_best_level_for_downsample (some h) target ∧
      kfbslide_get_best_level_for_downsample (some h) target < kfbslide_get_level_count (some h) ∧
      (2 : ℚ) ^ (kfbslide_get_best_level_for_downsample (some h) target).toNat ≤ target ∧
      ∀ j : Int, kfbslide_get_best_level_for_downsample (some h) target < j →
        j < kfbslide_get_level_count (some h) → target < (2 : ℚ) ^ j.toNat) ∧
    (target < 1 → kfbslide_get_best_level_for_downsample (some h) target = 0) ∧
    (kfbslide_get_level_count (some h) = 6 →
      kfbslide_get_best_level_for_downsample (some h) 2 = 1 ∧
      kfbslide_get_best_level_for_downsample (some h) (2001 / 1000) = 1 ∧
      kfbslide_get_best_level_for_downsample (some h) 4 = 2) := by
  refine ⟨?_, ?_, ?_⟩
  · intro hn ht
    simp only [kfbslide_get_level_count] at hn ⊢
    have hnot : ¬ target < 1 := not_lt.mpr ht
    simp only [kfbslide_get_best_level_for_downsample, hnot, if_false]
    exact bestLevelLoop_spec h.maxLevel target h.maxLevel.toNat 0 (le_refl 0) (by omega)
      (by omega) (by simpa using ht)
  · intro ht
    simp [kfbslide_get_best_level_for_downsample, ht]
  · intro hn
    simp only [kfbslide_get_level_count] at hn
    refine ⟨?_, ?_, ?_⟩ <;>
      norm_num [kfbslide_get_best_level_for_downsample, hn, bestLevelLoop, shl1_one, shl1_two,
        shl1_three, shl1_four, shl1_five, shl1_six]

theorem best_level_coarsest_witness :
    (1 : Int) ≤ kfbslide_get_level_count (some sampleHandle) ∧ (1 : ℚ) ≤ 3 ∧
    (2 : ℚ) ^ (kfbslide_get_best_level_for_downsample (some sampleHandle) 3).toNat ≤ 3 ∧
    kfbslide_get_best_level_for_downsample (some sampleHandle) (1 / 2) = 0 ∧
    kfbslide_get_best_level_for_downsample (some sampleHandle) 4 = 2 :=
  ⟨by decide, by norm_num,
    ((best_level_coarsest sampleHandle 3).1 (by decide) (by norm_num)).2.2.1,
    (best_level_coarsest sampleHandle (1 / 2)).2.1 (by norm_num),
    ((best_level_coarsest sampleHandle 4).2.2 rfl).2.2⟩

/-- C4 (as stated, refuted): with `levelCount = 6`, target 1.5 does not give level 1; the
loop stops at `i = 0` because `1LL << 1 = 2 > 1.5`. -/
theorem best_level_one_and_a_half_counterexample :
    kfbslide_get_level_count (some sampleHandle) = 6 ∧
    kfbslide_get_best_level_for_downsample (some sampleHandle) (3 / 2) = 0 ∧
    ¬ kfbslide_get_best_level_for_downsample (some sampleHandle) (3 / 2) = 1 := by
  have e : kfbslide_get_best_level_for_downsample (some sampleHandle) (3 / 2) = 0 := by
    norm_num [kfbslide_get_best_level_for_downsample, sampleHandle, bestLevelLoop, shl1_one,
      shl1_two, shl1_three, shl1_four, shl1_five, shl1_six]
  exact ⟨rfl, e, by rw [e]; decide⟩

/-- C4 (amended): for a handle with `levelCount = 6`,
`kfbslide_get_best_level_for_downsample(handle, 1.5)` returns 0. -/
theorem best_level_one_and_a_half (h : ImgHandle)
    (hn : kfbslide_get_level_count (some h) = 6) :
    kfbslide_get_best_level_for_downsample (some h) (3 / 2) = 0 := by
  simp only [kfbslide_get_level_count] at hn
  norm_num [kfbslide_get_best_level_for_downsample, hn, bestLevelLoop, shl1_one, shl1_two,
        shl1_three, shl1_four, shl1_five, shl1_six]

theorem best_level_one_and_a_half_witness :
    kfbslide_get_level_count (some sampleHandle) = 6 ∧
    kfbslide_get_best_level_for_downsample (some sampleHandle) (3 / 2) = 0 :=
  ⟨rfl, best_level_one_and_a_half sampleHandle rfl⟩

/-- C6 (as stated, refuted): at level 5 of a six-level handle the level-0 coordinate 31
converts to 0 (this is the coordinate `kfbslide_read_region` hands to the vendor), and
back to 0, which is 31 pixels away from the original. -/
theorem coord_round_trip_counterexample :
    (0 : Int) ≤ 5 ∧ (5 : Int) < kfbslide_get_level_count (some sampleHandle) ∧
    (kfbslide_read_region sampleProcess (some sampleHandle) 5 31 31 (some 0) (some none)).proc.trace =
      sampleProcess.trace ++ [Event.GetImageStream 7 (levelScale sampleHandle 5) 0 0] ∧
    levelCoord (some sampleHandle) 5 31 = 0 ∧
    ¬ |(levelCoord (some sampleHandle) 5 31 : ℚ) *
        kfbslide_get_level_downsample (some sampleHandle) 5 - 31| ≤ 1 := by
  have e : levelCoord (some sampleHandle) 5 31 = 0 := by
    rw [levelCoord_in_range sampleHandle 5 31 (by decide) (by decide)]
    decide
  refine ⟨by decide, by decide, ?_, e, ?_⟩
  · have hc : ¬ ((5 : Int) < 0 ∨ (5 : Int) ≥ sampleHandle.maxLevel) := by decide
    have hg : sampleProcess.g_kfb_lib.GetImageStream =
        some (fun _ _ _ _ _ _ => { nBytes := 4096, buf := some 500 }) := rfl
    simp only [kfbslide_read_region, hc, if_false, hg, e]
    rfl
  · rw [e]
    norm_num

/-- C6 (amended): for every handle, every level `L` with `0 ≤ L < levelCount` and all
level-0 coordinates `(x, y)`, converting to level-`L` coordinates as
`kfbslide_read_region` / `kfbslide_get_image_roi_stream` do and multiplying back by
`downsample(L) = 2 ^ L` lands within one level-`L` pixel of the original:
`|x' - x| ≤ 2 ^ L - 1` and `|y' - y| ≤ 2 ^ L - 1`. -/
theorem coord_round_trip (h : ImgHandle) (L x y : Int) (h0 : 0 ≤ L)
    (h1 : L < kfbslide_get_level_count (some h)) :
    kfbslide_get_level_downsample (some h) L = (2 : ℚ) ^ L.toNat ∧
    |(levelCoord (some h) L x : ℚ) * kfbslide_get_level_downsample (some h) L - x| ≤
      (2 : ℚ) ^ L.toNat - 1 ∧
    |(levelCoord (some h) L y : ℚ) * kfbslide_get_level_downsample (some h) L - y| ≤
      (2 : ℚ) ^ L.toNat - 1 := by
  simp only [kfbslide_get_level_count] at h1
  have hd := downsample_in_range h L h0 h1
  have key : ∀ z : Int, |(levelCoord (some h) L z : ℚ) *
      kfbslide_get_level_downsample (some h) L - z| ≤ (2 : ℚ) ^ L.toNat - 1 := by
    intro z
    rw [hd, levelCoord_in_range h L z h0 h1]
    have hz := tdiv_mul_close z (2 ^ L.toNat) (by positivity)
    have hq : ((|Int.tdiv z (2 ^ L.toNat) * 2 ^ L.toNat - z| : Int) : ℚ) ≤
        (((2 : Int) ^ L.toNat - 1 : Int) : ℚ) := by exact_mod_cast hz
    push_cast at hq
    exact hq
  exact ⟨hd, key x, key y⟩

theorem coord_round_trip_witness :
    (0 : Int) ≤ 5 ∧ (5 : Int) < kfbslide_get_level_count (some sampleHandle) ∧
    |(levelCoord (some sampleHandle) 5 31 : ℚ) *
        kfbslide_get_level_downsample (some sampleHandle) 5 - ((31 : Int) : ℚ)| ≤
      (2 : ℚ) ^ (5 : Int).toNat - 1 :=
  ⟨by decide, by decide, (coord_round_trip sampleHandle 5 31 (-31) (by decide) (by decide)).2.1⟩

/-! ## Narrowing to `float` -/

theorem roundHalfEven_intCast (k : Int) : roundHalfEven (k : ℚ) = k := by
  simp [roundHalfEven]

theorem toFloat_of_integral (q : ℚ) (hq : q ≠ 0) (k : Int)
    (hk : q / (2 : ℚ) ^ (Int.log 2 |q| - 23) = (k : ℚ)) : toFloat q = q := by
  have hpos : (2 : ℚ) ^ (Int.log 2 |q| - 23) ≠ 0 := by positivity
  unfold toFloat
  rw [if_neg hq]
  simp only
  rw [hk, roundHalfEven_intCast, ← hk]
  field_simp

/-- An `int` of magnitude at most `2 ^ 24`, divided by a power of two, is a `float`. -/
theorem toFloat_exact (s : Int) (n : Nat) (hs : |s| ≤ 2 ^ 24) :
    toFloat ((s : ℚ) / 2 ^ n) = (s : ℚ) / 2 ^ n := by
  by_cases h0 : s = 0
  · subst h0
    simp [toFloat]
  have hsq : (s : ℚ) ≠ 0 := by exact_mod_cast h0
  have hq : (s : ℚ) / 2 ^ n ≠ 0 := by positivity
  have habs : |(s : ℚ) / 2 ^ n| = |(s : ℚ)| / 2 ^ n := by
    rw [abs_div, abs_of_pos (by positivity : (0 : ℚ) < 2 ^ n)]
  have hlow := @Int.zpow_log_le_self ℚ _ _ 2 (|(s : ℚ) / 2 ^ n|) (by norm_num) (abs_pos.mpr hq)
  set e := Int.log 2 |(s : ℚ) / 2 ^ n| with he
  have hsle : |(s : ℚ)| ≤ 2 ^ 24 := by
    have : ((|s| : Int) : ℚ) ≤ ((2 ^ 24 : Int) : ℚ) := by exact_mod_cast hs
    simpa using this
  -- `2 ^ (e + n) ≤ |s|`
  have hen : (2 : ℚ) ^ (e + n) ≤ |(s : ℚ)| := by
    rw [zpow_add₀ (by norm_num : (2 : ℚ) ≠ 0), zpow_natCast]
    rw [habs] at hlow
    have hpos : (0 : ℚ) < 2 ^ n := by positivity
    calc (2 : ℚ) ^ e * 2 ^ n ≤ |(s : ℚ)| / 2 ^ n * 2 ^ n := by
          exact mul_le_mul_of_nonneg_right hlow hpos.le
      _ = |(s : ℚ)| := by field_simp
  have hbound : e + n ≤ 24 := by
    by_contra hcon
    have h25 : (25 : Int) ≤ e + n := by omega
    have : (2 : ℚ) ^ (25 : Int) ≤ (2 : ℚ) ^ (e + n) := zpow_le_zpow_right₀ (by norm_num) h25
    have h2 : (2 : ℚ) ^ (25 : Int) = 2 ^ 25 := by norm_cast
    rw [h2] at this
    have : (2 : ℚ) ^ 25 ≤ 2 ^ 24 := le_trans (le_trans this hen) hsle
    norm_num at this
  -- the scaled value `s * 2 ^ (23 - e - n)`
  have hscaled : (s : ℚ) / 2 ^ n / (2 : ℚ) ^ (e - 23) = (s : ℚ) * (2 : ℚ) ^ (23 - e - n) := by
    have ha : (2 : ℚ) ^ (23 - e - (n : Int)) = ((2 : ℚ) ^ (e - 23))⁻¹ / 2 ^ n := by
      have e1 : (23 - e - (n : Int)) = -(e - 23) - n := by ring
      rw [e1, zpow_sub₀ (by norm_num : (2 : ℚ) ≠ 0), zpow_neg, zpow_natCast]
    have hne : (2 : ℚ) ^ (e - 23) ≠ 0 := by positivity
    rw [ha]
    field_simp
    left
    ring
  by_cases hd : 0 ≤ 23 - e - (n : Int)
  · obtain ⟨m, hm⟩ := Int.eq_ofNat_of_zero_le hd
    apply toFloat_of_integral _ hq (s * 2 ^ m)
    rw [← he, hscaled, hm]
    push_cast
    rw [zpow_natCast]
  · have hen24 : e + n = 24 := by omega
    rw [hen24] at hen
    have h24 : (2 : ℚ) ^ (24 : Int) = 2 ^ 24 := by norm_cast
    rw [h24] at hen
    have habs2 : |(s : ℚ)| = 2 ^ 24 := le_antisymm hsle hen
    have hexp : 23 - e - (n : Int) = -1 := by omega
    have hhalf : (2 : ℚ) ^ (-1 : Int) = 1 / 2 := by norm_num
    rcases abs_eq (by positivity : (0 : ℚ) ≤ 2 ^ 24) |>.mp habs2 with hp | hp
    · apply toFloat_of_integral _ hq (2 ^ 23)
      rw [← he, hscaled, hexp, hhalf, hp]
      norm_num
    · apply toFloat_of_integral _ hq (-(2 ^ 23))
      rw [← he, hscaled, hexp, hhalf, hp]
      norm_num

/-- The `int` `2 ^ 24 + 1` is not a `float`: it narrows to `2 ^ 24`. -/
theorem toFloat_16777217 : toFloat 16777217 = 16777216 := by
  have hlog : Int.log 2 |(16777217 : ℚ)| = 24 := by
    have h1 : |(16777217 : ℚ)| = ((16777217 : ℕ) : ℚ) := by norm_num
    have h2 : Nat.log 2 16777217 = 24 := by norm_num [Nat.log_eq_iff]
    rw [h1, Int.log_natCast, h2]
    rfl
  have hfloor : ⌊(16777217 : ℚ) / 2⌋ = 8388608 := by
    rw [Int.floor_eq_iff]
    norm_num
  unfold toFloat
  rw [if_neg (by norm_num), hlog]
  norm_num [roundHalfEven, hfloor]

/-! ## Region and ROI reads -/

theorem wideScale_open :
    kfbslide_open wideScaleRuntime wideScaleProcess 7 "slide.kfb" =
      some (some wideScaleHandle,
        { wideScaleProcess with
          trace := wideScaleProcess.trace ++
            [Event.InitImageFile 7 "slide.kfb", Event.GetHeaderInfo 7, Event.GetLabelImage 7,
             Event.GetThumbnailImage 7, Event.GetPreviewImage 7] }) := by
  simp [kfbslide_open, wideScaleProcess, kfbslide_init, wideScaleRuntime, wideScaleObject,
    sampleRuntime, sampleObject, Process.start, KfbLibrary.new, ImgHandle.new,
    ImgHandle.fromHeader, load_associated_images, loadOne, mapAssign, wideScaleHeader,
    sampleHeader, wideScaleHandle, sampleHandle, ilog2_sample, sampleInitImageFile]
  decide

theorem levelScale_in_range (h : ImgHandle) (level : Int) (h0 : 0 ≤ level)
    (h1 : level < h.maxLevel) :
    levelScale h level = toFloat ((h.scanScale : ℚ) / 2 ^ level.toNat) := by
  rw [levelScale, downsample_in_range h level h0 h1]

/-- C5 (as stated, refuted): for a slide whose header reports scan scale
`16777217 = 2 ^ 24 + 1`, `kfbslide_read_region` at level 0 hands the vendor the scale
`16777216`, not `scanScale / 2 ^ 0 = 16777217`: the quotient is narrowed to `float`. -/
theorem read_region_scale_counterexample :
    kfbslide_open wideScaleRuntime wideScaleProcess 7 "slide.kfb" =
      some (some wideScaleHandle,
        { wideScaleProcess with
          trace := wideScaleProcess.trace ++
            [Event.InitImageFile 7 "slide.kfb", Event.GetHeaderInfo 7, Event.GetLabelImage 7,
             Event.GetThumbnailImage 7, Event.GetPreviewImage 7] }) ∧
    (kfbslide_read_region wideScaleProcess (some wideScaleHandle) 0 0 0 (some 0)
        (some none)).proc.trace =
      wideScaleProcess.trace ++ [Event.GetImageStream 7 16777216 0 0] ∧
    (wideScaleHandle.scanScale : ℚ) / 2 ^ (0 : Int).toNat = 16777217 ∧
    (kfbslide_read_region wideScaleProcess (some wideScaleHandle) 0 0 0 (some 0)
        (some none)).proc.trace ≠
      wideScaleProcess.trace ++
        [Event.GetImageStream 7 ((wideScaleHandle.scanScale : ℚ) / 2 ^ (0 : Int).toNat) 0 0] := by
  have hc : ¬ ((0 : Int) < 0 ∨ (0 : Int) ≥ wideScaleHandle.maxLevel) := by decide
  have hg : wideScaleProcess.g_kfb_lib.GetImageStream =
      some (fun _ _ _ _ _ _ => { nBytes := 4096, buf := some 500 }) := rfl
  have hx : levelCoord (some wideScaleHandle) 0 0 = 0 := by
    rw [levelCoord_in_range wideScaleHandle 0 0 (by decide) (by decide)]
    decide
  have hsc : levelScale wideScaleHandle 0 = 16777216 := by
    rw [levelScale_in_range wideScaleHandle 0 (by decide) (by decide)]
    have e : ((wideScaleHandle.scanScale : Int) : ℚ) / 2 ^ (0 : Int).toNat = 16777217 := by
      norm_num [wideScaleHandle]
    rw [e, toFloat_16777217]
  have htrace : (kfbslide_read_region wideScaleProcess (some wideScaleHandle) 0 0 0 (some 0)
      (some none)).proc.trace =
      wideScaleProcess.trace ++ [Event.GetImageStream 7 16777216 0 0] := by
    simp only [kfbslide_read_region, hc, if_false, hg, hx, hsc]
    rfl
  refine ⟨wideScale_open, htrace, by norm_num [wideScaleHandle], ?_⟩
  rw [htrace]
  norm_num [wideScaleHandle]

/-- C5 (amended): `kfbslide_read_region` and `kfbslide_get_image_roi_stream` invoke the
vendor call exactly when the handle and both output pointers are non-null,
`0 ≤ level < levelCount` and the corresponding optional capability (`GetImageStream`,
resp. `GetImageDataRoi`) is present; otherwise they return false, touch nothing and make
no call. When they do call it, it is called once, with the scale `scanScale / 2 ^ level`
narrowed to `float` (which is exactly `scanScale / 2 ^ level` whenever
`|scanScale| ≤ 2 ^ 24`) and the coordinates `(x / 2 ^ level, y / 2 ^ level)` truncated
toward zero, for all integers `x`, `y`; the ROI call passes `width` and `height` through
unchanged and returns the vendor's result; `kfbslide_read_region` returns true iff the
byte count left by the vendor is positive. -/
theorem read_region_roi_vendor_call (p : Process) (s : Option ImgHandle)
    (level x y width height : Int) (nBytes : Option Int) (buf : Option (Option Ptr)) :
    ((s = none ∨ nBytes = none ∨ buf = none ∨ level < 0 ∨ kfbslide_get_level_count s ≤ level ∨
        p.g_kfb_lib.GetImageStream = none) →
      kfbslide_read_region p s level x y nBytes buf =
        { ret := false, nBytes := nBytes, buf := buf, proc := p }) ∧
    ((s = none ∨ nBytes = none ∨ buf = none ∨ level < 0 ∨ kfbslide_get_level_count s ≤ level ∨
        p.g_kfb_lib.GetImageDataRoi = none) →
      kfbslide_get_image_roi_stream p s level x y width height nBytes buf =
        { ret := false, nBytes := nBytes, buf := buf, proc := p }) ∧
    (∀ (h : ImgHandle) (nb : Int) (b : Option Ptr), s = some h → nBytes = some nb →
      buf = some b → 0 ≤ level → level < kfbslide_get_level_count s →
      (∀ getImageStream, p.g_kfb_lib.GetImageStream = some getImageStream →
        (kfbslide_read_region p s level x y nBytes buf).proc =
          { p with trace := p.trace ++
            [Event.GetImageStream h.imgStruct (toFloat ((h.scanScale : ℚ) / 2 ^ level.toNat))
              (Int.tdiv x (2 ^ level.toNat)) (Int.tdiv y (2 ^ level.toNat))] } ∧
        (kfbslide_read_region p s level x y nBytes buf).nBytes =
          some (getImageStream p.trace h.imgStruct
            (toFloat ((h.scanScale : ℚ) / 2 ^ level.toNat))
            (Int.tdiv x (2 ^ level.toNat)) (Int.tdiv y (2 ^ level.toNat))
            { nBytes := nb, buf := b }).nBytes ∧
        ((kfbslide_read_region p s level x y nBytes buf).ret = true ↔
          0 < (getImageStream p.trace h.imgStruct
            (toFloat ((h.scanScale : ℚ) / 2 ^ level.toNat))
            (Int.tdiv x (2 ^ level.toNat)) (Int.tdiv y (2 ^ level.toNat))
            { nBytes := nb, buf := b }).nBytes)) ∧
      (∀ getImageDataRoi, p.g_kfb_lib.GetImageDataRoi = some getImageDataRoi →
        (kfbslide_get_image_roi_stream p s level x y width height nBytes buf).proc =
          { p with trace := p.trace ++
            [Event.GetImageDataRoi h.imgStruct (toFloat ((h.scanScale : ℚ) / 2 ^ level.toNat))
              (Int.tdiv x (2 ^ level.toNat)) (Int.tdiv y (2 ^ level.toNat)) width height true] } ∧
        (kfbslide_get_image_roi_stream p s level x y width height nBytes buf).ret =
          (getImageDataRoi p.trace h.imgStruct
            (toFloat ((h.scanScale : ℚ) / 2 ^ level.toNat))
            (Int.tdiv x (2 ^ level.toNat)) (Int.tdiv y (2 ^ level.toNat)) width height
            { nBytes := nb, buf := b } true).1) ∧
      (|h.scanScale| ≤ 2 ^ 24 →
        toFloat ((h.scanScale : ℚ) / 2 ^ level.toNat) = (h.scanScale : ℚ) / 2 ^ level.toNat)) := by
  refine ⟨?_, ?_, ?_⟩
  · intro hbad
    cases s with
    | none => cases nBytes <;> cases buf <;> rfl
    | some h =>
      cases nBytes with
      | none => cases buf <;> rfl
      | some nb =>
        cases buf with
        | none => rfl
        | some b =>
          simp only [kfbslide_get_level_count, reduceCtorEq, false_or] at hbad
          by_cases hc : level < 0 ∨ level ≥ h.maxLevel
          · simp only [kfbslide_read_region, hc, if_true]
          · have hcap : p.g_kfb_lib.GetImageStream = none := by
              rcases hbad with h1 | h1 | h1
              · exact absurd (Or.inl h1) hc
              · exact absurd (Or.inr h1) hc
              · exact h1
            simp only [kfbslide_read_region, hc, if_false, hcap]
  · intro hbad
    cases s with
    | none => cases nBytes <;> cases buf <;> rfl
    | some h =>
      cases nBytes with
      | none => cases buf <;> rfl
      | some nb =>
        cases buf with
        | none => rfl
        | some b =>
          simp only [kfbslide_get_level_count, reduceCtorEq, false_or] at hbad
          by_cases hc : level < 0 ∨ level ≥ h.maxLevel
          · simp only [kfbslide_get_image_roi_stream, hc, if_true]
          · have hcap : p.g_kfb_lib.GetImageDataRoi = none := by
              rcases hbad with h1 | h1 | h1
              · exact absurd (Or.inl h1) hc
              · exact absurd (Or.inr h1) hc
              · exact h1
            simp only [kfbslide_get_image_roi_stream, hc, if_false, hcap]
  · intro h nb b hs hn hb h0 h1
    subst hs hn hb
    simp only [kfbslide_get_level_count] at h1
    have hc : ¬ (level < 0 ∨ level ≥ h.maxLevel) := by omega
    have hx := levelCoord_in_range h level x h0 h1
    have hy := levelCoord_in_range h level y h0 h1
    have hsc := levelScale_in_range h level h0 h1
    refine ⟨?_, ?_, ?_⟩
    · intro f hf
      simp only [kfbslide_read_region, hc, if_false, hf, hx, hy, hsc, decide_eq_true_eq,
        gt_iff_lt, and_self]
    · intro g hg
      simp only [kfbslide_get_image_roi_stream, hc, if_false, hg, hx, hy, hsc, and_self]
    · intro hsmall
      exact toFloat_exact h.scanScale level.toNat hsmall

theorem read_region_roi_vendor_call_witness :
    kfbslide_read_region sampleProcess (some sampleHandle) 6 (-7) 9 (some 0) (some none) =
      { ret := false, nBytes := some 0, buf := some none, proc := sampleProcess } ∧
    (0 : Int) ≤ 1 ∧ (1 : Int) < kfbslide_get_level_count (some sampleHandle) ∧
    (kfbslide_read_region sampleProcess (some sampleHandle) 1 (-7) 9 (some 0) (some none)).proc =
      { sampleProcess with trace := sampleProcess.trace ++
        [Event.GetImageStream sampleHandle.imgStruct
          (toFloat ((sampleHandle.scanScale : ℚ) / 2 ^ (1 : Int).toNat))
          (Int.tdiv (-7) (2 ^ (1 : Int).toNat)) (Int.tdiv 9 (2 ^ (1 : Int).toNat))] } ∧
    Int.tdiv (-7) (2 ^ (1 : Int).toNat) = -3 ∧
    |sampleHandle.scanScale| ≤ 2 ^ 24 ∧
    toFloat ((sampleHandle.scanScale : ℚ) / 2 ^ (1 : Int).toNat) =
      (sampleHandle.scanScale : ℚ) / 2 ^ (1 : Int).toNat :=
  have t := (read_region_roi_vendor_call sampleProcess (some sampleHandle) 1 (-7) 9 0 0
    (some 0) (some none)).2.2 sampleHandle 0 none rfl rfl rfl (by decide) (by decide)
  ⟨(read_region_roi_vendor_call sampleProcess (some sampleHandle) 6 (-7) 9 0 0
      (some 0) (some none)).1 (Or.inr (Or.inr (Or.inr (Or.inr (Or.inl (by decide)))))),
    by decide, by decide, (t.1 _ rfl).1, by decide, by decide, t.2.2 (by decide)⟩

/-! ## Associated images -/

theorem mapFind_filter_ne {α : Type} (m : List (String × α)) (k n : String) (hn : n ≠ k) :
    mapFind (m.filter (fun e => e.1 != k)) n = mapFind m n := by
  induction m with
  | nil => rfl
  | cons e m ih =>
    obtain ⟨a, v⟩ := e
    simp only [mapFind] at ih ⊢
    by_cases hak : a = k
    · subst hak
      have hna : (n == a) = false := by simpa using hn
      simp [List.filter, List.lookup, hna, ih]
    · have hf : (a != k) = true := by simpa using hak
      simp only [List.filter, hf, List.lookup]
      cases hna : (n == a) with
      | true => rfl
      | false => simpa using ih

theorem mapFind_mapAssign {α : Type} (m : List (String × α)) (k : String) (v : α) (n : String) :
    mapFind (mapAssign m k v) n = if n = k then some v else mapFind m n := by
  by_cases hn : n = k
  · subst hn
    simp [mapFind, mapAssign, List.lookup]
  · have hb : (n == k) = false := by simpa using hn
    rw [if_neg hn, ← mapFind_filter_ne m k n hn]
    simp [mapFind, mapAssign, List.lookup, hb]

/-- The cache invariant: the name array lists exactly the keys of the image map, and every
cached image holds a non-null buffer. -/
theorem loadOne_cache (get : DLLGetImageFunc) (ev : Ptr → Event) (name : String)
    (st : ImgHandle × ImageOut × Trace) (names : List String)
    (hnames : st.1.assoNames = some names)
    (hinv : ∀ n, (n ∈ names ↔ (mapFind st.1.assoImages n).isSome = true) ∧
      ∀ img, mapFind st.1.assoImages n = some img → img.buf.isSome = true) :
    ∃ names', (loadOne get ev name st).1.assoNames = some names' ∧
      ∀ n, (n ∈ names' ↔ (mapFind (loadOne get ev name st).1.assoImages n).isSome = true) ∧
        ∀ img, mapFind (loadOne get ev name st).1.assoImages n = some img →
          img.buf.isSome = true := by
  simp only [loadOne]
  split_ifs with hc
  · refine ⟨names ++ [name], by simp [hnames], ?_⟩
    intro n
    simp only [mapFind_mapAssign, List.mem_append, List.mem_singleton]
    simp only [Bool.and_eq_true] at hc
    by_cases hn : n = name
    · simp only [hn, if_true, Option.isSome_some, or_true, true_iff, Option.some.injEq, true_and]
      intro img himg
      rw [← himg]
      exact hc.2
    · simp only [hn, if_false, or_false]
      exact hinv n
  · exact ⟨names, hnames, hinv⟩

theorem load_associated_images_cache (lib : KfbLibrary) (s : ImgHandle) (t : Trace)
    (hempty : s.assoImages = []) (hnone : s.assoNames = none) :
    ∀ n, (n ∈ associatedNames (load_associated_images lib s t).1 ↔
        (mapFind (load_associated_images lib s t).1.assoImages n).isSome = true) ∧
      ∀ img, mapFind (load_associated_images lib s t).1.assoImages n = some img →
        img.buf.isSome = true := by
  unfold load_associated_images
  split
  · rename_i getThumbnail getPreview getLabel _ _ _
    have h0 : ∀ n, (n ∈ ([] : List String) ↔ (mapFind s.assoImages n).isSome = true) ∧
        ∀ img, mapFind s.assoImages n = some img → img.buf.isSome = true := by
      intro n
      simp [hempty, mapFind]
    obtain ⟨n1, e1, i1⟩ := loadOne_cache getLabel Event.GetLabelImage "label"
      ({ s with assoNames := some [] }, { buf := none, ret0 := 0, ret1 := 0, ret2 := 0 }, t)
      [] rfl h0
    obtain ⟨n2, e2, i2⟩ := loadOne_cache getThumbnail Event.GetThumbnailImage "thumbnail" _ n1 e1 i1
    obtain ⟨n3, e3, i3⟩ := loadOne_cache getPreview Event.GetPreviewImage "macro" _ n2 e2 i2
    intro n
    simp only [associatedNames, kfbslide_get_associated_image_names, e3, Option.getD_some]
    exact i3 n
  · intro n
    simp [associatedNames, kfbslide_get_associated_image_names, hnone, hempty, mapFind]

theorem open_cache (rt : Runtime) (p : Process) (imgStruct : Ptr) (filename : String)
    (s : ImgHandle) (p' : Process)
    (hopen : kfbslide_open rt p imgStruct filename = some (some s, p')) :
    ∀ n, (n ∈ associatedNames s ↔ (mapFind s.assoImages n).isSome = true) ∧
      ∀ img, mapFind s.assoImages n = some img → img.buf.isSome = true := by
  cases hg : p.g_kfb_lib.GetHeaderInfo with
  | none =>
    unfold kfbslide_open at hopen
    simp only [hg] at hopen
    split at hopen
    · simp at hopen
    · split at hopen
      · simp at hopen
      · split at hopen <;> simp at hopen
  | some g =>
    rw [kfbslide_open_handle hg hopen]
    exact load_associated_images_cache _ _ _ rfl rfl

theorem loadOne_result (get : DLLGetImageFunc) (ev : Ptr → Event) (name : String)
    (st : ImgHandle × ImageOut × Trace) :
    (loadOne get ev name st).1.imgStruct = st.1.imgStruct ∧
    (loadOne get ev name st).2.1 = (get st.2.2 st.1.imgStruct st.2.1).2 ∧
    (loadOne get ev name st).2.2 = st.2.2 ++ [ev st.1.imgStruct] ∧
    (loadOne get ev name st).1.assoNames =
      st.1.assoNames.map (fun names => names ++
        (if delivers (get st.2.2 st.1.imgStruct st.2.1) = true then [name] else [])) ∧
    ∀ n, mapFind (loadOne get ev name st).1.assoImages n =
      if n = name ∧ delivers (get st.2.2 st.1.imgStruct st.2.1) = true then
        answerImage (get st.2.2 st.1.imgStruct st.2.1)
      else mapFind st.1.assoImages n := by
  by_cases hc : delivers (get st.2.2 st.1.imgStruct st.2.1) = true
  · have hc2 : ((get st.2.2 st.1.imgStruct st.2.1).1 &&
        (get st.2.2 st.1.imgStruct st.2.1).2.buf.isSome) = true := hc
    simp only [Bool.and_eq_true] at hc2
    simp [loadOne, hc2, hc, answerImage, mapFind_mapAssign]
  · have hc2 : ¬ ((get st.2.2 st.1.imgStruct st.2.1).1 &&
        (get st.2.2 st.1.imgStruct st.2.1).2.buf.isSome) = true := hc
    simp only [Bool.and_eq_true] at hc2
    simp only [loadOne, Bool.and_eq_true, hc2, if_false, hc, and_false, List.append_nil]
    refine ⟨trivial, trivial, trivial, ?_, fun _ => by simp⟩
    cases st.1.assoNames <;> simp

theorem load_associated_images_answers (lib : KfbLibrary) (s0 : ImgHandle) (t : Trace)
    (getThumbnail getPreview getLabel : DLLGetImageFunc)
    (hT : lib.GetThumbnailImage = some getThumbnail)
    (hP : lib.GetPreviewImage = some getPreview)
    (hL : lib.GetLabelImage = some getLabel) (hempty : s0.assoImages = []) :
    (load_associated_images lib s0 t).1.assoNames =
      some ((if delivers (labelAnswer getLabel t s0.imgStruct) = true then ["label"] else []) ++
        (if delivers (thumbnailAnswer getLabel getThumbnail t s0.imgStruct) = true
          then ["thumbnail"] else []) ++
        (if delivers (previewAnswer getLabel getThumbnail getPreview t s0.imgStruct) = true
          then ["macro"] else [])) ∧
    mapFind (load_associated_images lib s0 t).1.assoImages "label" =
      answerImage (labelAnswer getLabel t s0.imgStruct) ∧
    mapFind (load_associated_images lib s0 t).1.assoImages "thumbnail" =
      answerImage (thumbnailAnswer getLabel getThumbnail t s0.imgStruct) ∧
    mapFind (load_associated_images lib s0 t).1.assoImages "macro" =
      answerImage (previewAnswer getLabel getThumbnail getPreview t s0.imgStruct) ∧
    (load_associated_images lib s0 t).2 =
      t ++ [Event.GetLabelImage s0.imgStruct, Event.GetThumbnailImage s0.imgStruct,
        Event.GetPreviewImage s0.imgStruct] := by
  have e1 : ¬ ("label" = "thumbnail") := by decide
  have e2 : ¬ ("label" = "macro") := by decide
  have e3 : ¬ ("thumbnail" = "macro") := by decide
  have e4 : ¬ ("thumbnail" = "label") := by decide
  have hnil : ∀ n : String, mapFind ([] : List (String × AssoImage)) n = none := fun _ => rfl
  simp only [load_associated_images, hT, hP, hL]
  obtain ⟨a1, a2, a3, a4, a5⟩ := loadOne_result getLabel Event.GetLabelImage "label"
    ({ s0 with assoNames := some [] }, { buf := none, ret0 := 0, ret1 := 0, ret2 := 0 }, t)
  obtain ⟨b1, b2, b3, b4, b5⟩ := loadOne_result getThumbnail Event.GetThumbnailImage "thumbnail"
    (loadOne getLabel Event.GetLabelImage "label"
      ({ s0 with assoNames := some [] }, { buf := none, ret0 := 0, ret1 := 0, ret2 := 0 }, t))
  obtain ⟨c1, c2, c3, c4, c5⟩ := loadOne_result getPreview Event.GetPreviewImage "macro"
    (loadOne getThumbnail Event.GetThumbnailImage "thumbnail"
      (loadOne getLabel Event.GetLabelImage "label"
        ({ s0 with assoNames := some [] }, { buf := none, ret0 := 0, ret1 := 0, ret2 := 0 }, t)))
  simp only [] at a1 a2 a3 a4 a5
  simp only [a1, a2, a3] at b1 b2 b3 b4 b5
  simp only [b1, b2, b3] at c1 c2 c3 c4 c5
  refine ⟨?_, ?_, ?_, ?_, ?_⟩
  rotate_left 4
  · rw [c3]
    simp
  · rw [c4, b4, a4]
    simp [labelAnswer, thumbnailAnswer, previewAnswer]
  · rw [c5, b5, a5]
    simp [e1, e2, hempty, hnil, labelAnswer]
    intro h
    simp [answerImage, h]
  · rw [c5, b5, a5]
    simp [e3, e4, hempty, hnil, thumbnailAnswer, labelAnswer]
    intro h
    simp [answerImage, h]
  · rw [c5, b5, a5]
    simp [hempty, hnil, thumbnailAnswer, labelAnswer, previewAnswer]
    intro h
    simp [answerImage, h]

theorem load_associated_images_absent (lib : KfbLibrary) (s0 : ImgHandle) (t : Trace)
    (h : lib.GetThumbnailImage = none ∨ lib.GetPreviewImage = none ∨ lib.GetLabelImage = none) :
    load_associated_images lib s0 t = (s0, t) := by
  unfold load_associated_images
  cases hT : lib.GetThumbnailImage <;> cases hP : lib.GetPreviewImage <;>
    cases hL : lib.GetLabelImage <;> simp_all

theorem kfbslide_open_trace {rt : Runtime} {p : Process} {imgStruct : Ptr} {filename : String}
    {getHeaderInfo : DLLGetHeaderInfoFunc} {s : ImgHandle} {p' : Process}
    (hcap : p.g_kfb_lib.GetHeaderInfo = some getHeaderInfo)
    (hopen : kfbslide_open rt p imgStruct filename = some (some s, p')) :
    p'.trace = (load_associated_images p.g_kfb_lib
          (ImgHandle.fromHeader rt { ImgHandle.new imgStruct with isInitialized := true }
            (reportedHeader getHeaderInfo p imgStruct filename))
          (loadTrace p imgStruct filename)).2 := by
  unfold kfbslide_open at hopen
  dsimp only at hopen
  split at hopen
  · simp at hopen
  · split at hopen
    · simp at hopen
    · split at hopen
      · simp at hopen
      · split at hopen
        · simp at hopen
        · rename_i g hg
          rw [hcap] at hg
          cases hg
          split at hopen
          · simp at hopen
          · simp only [Option.some.injEq, Prod.mk.injEq] at hopen
            rw [← hopen.2]
            rfl

theorem kfbslide_open_header_cap {rt : Runtime} {p : Process} {imgStruct : Ptr}
    {filename : String} {s : ImgHandle} {p' : Process}
    (hopen : kfbslide_open rt p imgStruct filename = some (some s, p')) :
    ∃ getHeaderInfo, p.g_kfb_lib.GetHeaderInfo = some getHeaderInfo := by
  cases hg : p.g_kfb_lib.GetHeaderInfo with
  | some g => exact ⟨g, rfl⟩
  | none =>
    unfold kfbslide_open at hopen
    simp only [hg] at hopen
    split at hopen
    · simp at hopen
    · split at hopen
      · simp at hopen
      · split at hopen <;> simp at hopen

theorem emptyLabel_open :
    kfbslide_open emptyLabelRuntime emptyLabelProcess 7 "slide.kfb" =
      some (some emptyLabelHandle,
        { emptyLabelProcess with
          trace := emptyLabelProcess.trace ++
            [Event.InitImageFile 7 "slide.kfb", Event.GetHeaderInfo 7, Event.GetLabelImage 7,
             Event.GetThumbnailImage 7, Event.GetPreviewImage 7] }) := by
  simp [kfbslide_open, emptyLabelProcess, kfbslide_init, emptyLabelRuntime, emptyLabelObject,
    sampleRuntime, sampleObject, Process.start, KfbLibrary.new, ImgHandle.new,
    ImgHandle.fromHeader, load_associated_images, loadOne, mapAssign,
    sampleHeader, emptyLabelHandle, sampleHandle, ilog2_sample, sampleInitImageFile,
    sampleGetHeaderInfo]
  decide

/-- C7 (as stated, refuted): a vendor whose label call succeeds with a non-null buffer and
reports 0 bytes. After `kfbslide_open` the name `label` is listed, yet
`kfbslide_get_associated_image_dimensions` reports a byte count of 0 for it: being listed
and having a non-zero byte count are not equivalent. -/
theorem associated_cache_counterexample :
    kfbslide_open emptyLabelRuntime emptyLabelProcess 7 "slide.kfb" =
      some (some emptyLabelHandle,
        { emptyLabelProcess with
          trace := emptyLabelProcess.trace ++
            [Event.InitImageFile 7 "slide.kfb", Event.GetHeaderInfo 7, Event.GetLabelImage 7,
             Event.GetThumbnailImage 7, Event.GetPreviewImage 7] }) ∧
    kfbslide_get_associated_image_names (some emptyLabelHandle) = some ["label", "thumbnail"] ∧
    (kfbslide_get_associated_image_dimensions (some emptyLabelHandle) (some "label")
      (some 1) (some 1) (some 1)).nBytes = some 0 ∧
    ¬ ("label" ∈ associatedNames emptyLabelHandle ↔
        (kfbslide_get_associated_image_dimensions (some emptyLabelHandle) (some "label")
          (some 1) (some 1) (some 1)).nBytes ≠ some 0) := by
  have hd : (kfbslide_get_associated_image_dimensions (some emptyLabelHandle) (some "label")
      (some 1) (some 1) (some 1)).nBytes = some 0 := by decide
  refine ⟨emptyLabel_open, rfl, hd, ?_⟩
  rw [hd]
  intro h
  exact (h.mp (by decide)) rfl

/-- C7 (amended): for every handle returned by `kfbslide_open` and every name, the name is
listed by `kfbslide_get_associated_image_names` iff it is cached; for a cached name the
buffer is non-null, `kfbslide_get_associated_image_dimensions` reports the cached
dimensions and byte count and `kfbslide_read_associated_image` returns what `malloc`
returns for that byte count; for a name that is not listed
`kfbslide_read_associated_image` returns null and the dimensions are all 0, so a non-zero
byte count or a non-null buffer occurs only for listed names. What is cached is what the
vendor answered at open time: when the three image entry points are present, the list is
`label`, `thumbnail`, `macro` restricted to the calls that reported success with a
non-null buffer, and for each of these names the reported width, height and byte count
are the values the vendor call left in `ret[1]`, `ret[2]`, `ret[0]` (the byte count may
be 0) and the returned buffer is `malloc` of that byte count; when one of the three entry
points is missing, no call is made and no name is listed. -/
theorem associated_cache_consistency (rt rt' : Runtime) (p : Process) (imgStruct : Ptr)
    (filename : String) (s : ImgHandle) (p' : Process)
    (hopen : kfbslide_open rt p imgStruct filename = some (some s, p')) (name : String) :
    (name ∈ associatedNames s ↔ (mapFind s.assoImages name).isSome = true) ∧
    (∀ img, mapFind s.assoImages name = some img →
      img.buf.isSome = true ∧
      kfbslide_read_associated_image rt' (some s) (some name) = rt'.malloc (toSizeT img.nBytes) ∧
      ∀ w h b : Int,
        kfbslide_get_associated_image_dimensions (some s) (some name) (some w) (some h) (some b) =
          { width := some img.width, height := some img.height, nBytes := some img.nBytes }) ∧
    (name ∉ associatedNames s →
      kfbslide_read_associated_image rt' (some s) (some name) = none ∧
      ∀ w h b : Int,
        kfbslide_get_associated_image_dimensions (some s) (some name) (some w) (some h) (some b) =
          { width := some 0, height := some 0, nBytes := some 0 }) ∧
    ((∃ w h b : Int,
        (kfbslide_get_associated_image_dimensions (some s) (some name) (some w) (some h)
          (some b)).nBytes ≠ some 0) → name ∈ associatedNames s) ∧
    ((kfbslide_read_associated_image rt' (some s) (some name)).isSome = true →
      name ∈ associatedNames s) ∧
    (∀ getThumbnail getPreview getLabel : DLLGetImageFunc,
      p.g_kfb_lib.GetThumbnailImage = some getThumbnail →
      p.g_kfb_lib.GetPreviewImage = some getPreview →
      p.g_kfb_lib.GetLabelImage = some getLabel →
      kfbslide_get_associated_image_names (some s) =
        some ((if delivers (labelAnswer getLabel (loadTrace p imgStruct filename) imgStruct) = true
            then ["label"] else []) ++
          (if delivers (thumbnailAnswer getLabel getThumbnail
              (loadTrace p imgStruct filename) imgStruct) = true then ["thumbnail"] else []) ++
          (if delivers (previewAnswer getLabel getThumbnail getPreview
              (loadTrace p imgStruct filename) imgStruct) = true then ["macro"] else [])) ∧
      (∀ w h b : Int,
        kfbslide_get_associated_image_dimensions (some s) (some "label") (some w) (some h)
            (some b) =
          if delivers (labelAnswer getLabel (loadTrace p imgStruct filename) imgStruct) = true
          then
            { width := some (labelAnswer getLabel (loadTrace p imgStruct filename) imgStruct).2.ret1
              height := some (labelAnswer getLabel (loadTrace p imgStruct filename) imgStruct).2.ret2
              nBytes := some (labelAnswer getLabel (loadTrace p imgStruct filename) imgStruct).2.ret0 }
          else { width := some 0, height := some 0, nBytes := some 0 }) ∧
      (∀ w h b : Int,
        kfbslide_get_associated_image_dimensions (some s) (some "thumbnail") (some w) (some h)
            (some b) =
          if delivers (thumbnailAnswer getLabel getThumbnail
              (loadTrace p imgStruct filename) imgStruct) = true
          then
            { width := some (thumbnailAnswer getLabel getThumbnail
                (loadTrace p imgStruct filename) imgStruct).2.ret1
              height := some (thumbnailAnswer getLabel getThumbnail
                (loadTrace p imgStruct filename) imgStruct).2.ret2
              nBytes := some (thumbnailAnswer getLabel getThumbnail
                (loadTrace p imgStruct filename) imgStruct).2.ret0 }
          else { width := some 0, height := some 0, nBytes := some 0 }) ∧
      (∀ w h b : Int,
        kfbslide_get_associated_image_dimensions (some s) (some "macro") (some w) (some h)
            (some b) =
          if delivers (previewAnswer getLabel getThumbnail getPreview
              (loadTrace p imgStruct filename) imgStruct) = true
          then
            { width := some (previewAnswer getLabel getThumbnail getPreview
                (loadTrace p imgStruct filename) imgStruct).2.ret1
              height := some (previewAnswer getLabel getThumbnail getPreview
                (loadTrace p imgStruct filename) imgStruct).2.ret2
              nBytes := some (previewAnswer getLabel getThumbnail getPreview
                (loadTrace p imgStruct filename) imgStruct).2.ret0 }
          else { width := some 0, height := some 0, nBytes := some 0 }) ∧
      kfbslide_read_associated_image rt' (some s) (some "label") =
        (if delivers (labelAnswer getLabel (loadTrace p imgStruct filename) imgStruct) = true
          then rt'.malloc (toSizeT
            (labelAnswer getLabel (loadTrace p imgStruct filename) imgStruct).2.ret0)
          else none) ∧
      kfbslide_read_associated_image rt' (some s) (some "thumbnail") =
        (if delivers (thumbnailAnswer getLabel getThumbnail
            (loadTrace p imgStruct filename) imgStruct) = true
          then rt'.malloc (toSizeT (thumbnailAnswer getLabel getThumbnail
            (loadTrace p imgStruct filename) imgStruct).2.ret0)
          else none) ∧
      kfbslide_read_associated_image rt' (some s) (some "macro") =
        (if delivers (previewAnswer getLabel getThumbnail getPreview
            (loadTrace p imgStruct filename) imgStruct) = true
          then rt'.malloc (toSizeT (previewAnswer getLabel getThumbnail getPreview
            (loadTrace p imgStruct filename) imgStruct).2.ret0)
          else none) ∧
      (name ≠ "label" → name ≠ "thumbnail" → name ≠ "macro" → name ∉ associatedNames s) ∧
      p'.trace = loadTrace p imgStruct filename ++
        [Event.GetLabelImage imgStruct, Event.GetThumbnailImage imgStruct,
          Event.GetPreviewImage imgStruct]) ∧
    ((p.g_kfb_lib.GetThumbnailImage = none ∨ p.g_kfb_lib.GetPreviewImage = none ∨
        p.g_kfb_lib.GetLabelImage = none) →
      kfbslide_get_associated_image_names (some s) = none ∧ associatedNames s = [] ∧
      p'.trace = loadTrace p imgStruct filename) := by
  have hinv := open_cache rt p imgStruct filename s p' hopen name
  have habsent : name ∉ associatedNames s →
      kfbslide_read_associated_image rt' (some s) (some name) = none ∧
      ∀ w h b : Int,
        kfbslide_get_associated_image_dimensions (some s) (some name) (some w) (some h) (some b) =
          { width := some 0, height := some 0, nBytes := some 0 } := by
    intro hn
    have hnone : mapFind s.assoImages name = none := by
      cases hf : mapFind s.assoImages name with
      | none => rfl
      | some img => exact absurd (hinv.1.mpr (by simp [hf])) hn
    refine ⟨by simp [kfbslide_read_associated_image, hnone], ?_⟩
    intro w h b
    simp [kfbslide_get_associated_image_dimensions, hnone]
  have hdims : ∀ (n : String) (r : Bool × ImageOut), mapFind s.assoImages n = answerImage r →
      ∀ w h b : Int,
        kfbslide_get_associated_image_dimensions (some s) (some n) (some w) (some h) (some b) =
          if delivers r = true then
            { width := some r.2.ret1, height := some r.2.ret2, nBytes := some r.2.ret0 }
          else { width := some 0, height := some 0, nBytes := some 0 } := by
    intro n r hr w h b
    by_cases hd : delivers r = true
    · simp [kfbslide_get_associated_image_dimensions, hr, answerImage, hd]
    · simp [kfbslide_get_associated_image_dimensions, hr, answerImage, hd]
  have hread : ∀ (n : String) (r : Bool × ImageOut), mapFind s.assoImages n = answerImage r →
      kfbslide_read_associated_image rt' (some s) (some n) =
        (if delivers r = true then rt'.malloc (toSizeT r.2.ret0) else none) := by
    intro n r hr
    by_cases hd : delivers r = true
    · have hb : r.2.buf.isSome = true := by
        simp only [delivers, Bool.and_eq_true] at hd
        exact hd.2
      simp [kfbslide_read_associated_image, hr, answerImage, hd, hb]
    · simp [kfbslide_read_associated_image, hr, answerImage, hd]
  obtain ⟨g, hg⟩ := kfbslide_open_header_cap hopen
  have hs := kfbslide_open_handle hg hopen
  refine ⟨hinv.1, ?_, habsent, ?_, ?_, ?_, ?_⟩
  · intro img himg
    have hb := hinv.2 img himg
    refine ⟨hb, by simp [kfbslide_read_associated_image, himg, hb], ?_⟩
    intro w h b
    simp [kfbslide_get_associated_image_dimensions, himg]
  · rintro ⟨w, h, b, hne⟩
    by_contra hn
    exact hne (by rw [(habsent hn).2 w h b])
  · intro hsome
    by_contra hn
    rw [(habsent hn).1] at hsome
    simp at hsome
  · intro getThumbnail getPreview getLabel hT hP hL
    have hans := load_associated_images_answers p.g_kfb_lib
      (ImgHandle.fromHeader rt { ImgHandle.new imgStruct with isInitialized := true }
        (reportedHeader g p imgStruct filename))
      (loadTrace p imgStruct filename) getThumbnail getPreview getLabel hT hP hL rfl
    have hans2 : s.assoNames =
        some ((if delivers (labelAnswer getLabel (loadTrace p imgStruct filename) imgStruct) = true
            then ["label"] else []) ++
          (if delivers (thumbnailAnswer getLabel getThumbnail
              (loadTrace p imgStruct filename) imgStruct) = true then ["thumbnail"] else []) ++
          (if delivers (previewAnswer getLabel getThumbnail getPreview
              (loadTrace p imgStruct filename) imgStruct) = true then ["macro"] else [])) ∧
        mapFind s.assoImages "label" =
          answerImage (labelAnswer getLabel (loadTrace p imgStruct filename) imgStruct) ∧
        mapFind s.assoImages "thumbnail" =
          answerImage (thumbnailAnswer getLabel getThumbnail
            (loadTrace p imgStruct filename) imgStruct) ∧
        mapFind s.assoImages "macro" =
          answerImage (previewAnswer getLabel getThumbnail getPreview
            (loadTrace p imgStruct filename) imgStruct) := by
      rw [hs]
      exact ⟨hans.1, hans.2.1, hans.2.2.1, hans.2.2.2.1⟩
    obtain ⟨hn, hl, ht, hm⟩ := hans2
    refine ⟨hn, hdims _ _ hl, hdims _ _ ht, hdims _ _ hm, hread _ _ hl, hread _ _ ht,
      hread _ _ hm, ?_, (kfbslide_open_trace hg hopen).trans hans.2.2.2.2⟩
    intro h1 h2 h3 hmem
    simp only [associatedNames, kfbslide_get_associated_image_names, hn, Option.getD_some,
      List.mem_append] at hmem
    rcases hmem with (hmem | hmem) | hmem
    · split_ifs at hmem
      · exact h1 (by simpa using hmem)
      · simp at hmem
    · split_ifs at hmem
      · exact h2 (by simpa using hmem)
      · simp at hmem
    · split_ifs at hmem
      · exact h3 (by simpa using hmem)
      · simp at hmem
  · intro hcap
    have hl := load_associated_images_absent p.g_kfb_lib
      (ImgHandle.fromHeader rt { ImgHandle.new imgStruct with isInitialized := true }
        (reportedHeader g p imgStruct filename))
      (loadTrace p imgStruct filename) hcap
    have hnone : s.assoNames = none := by
      rw [hs]
      exact (congrArg (fun r => r.1.assoNames) hl)
    refine ⟨by simp [kfbslide_get_associated_image_names, hnone],
      by simp [associatedNames, kfbslide_get_associated_image_names, hnone],
      (kfbslide_open_trace hg hopen).trans (congrArg (fun r => r.2) hl)⟩

theorem associated_cache_consistency_witness :
    kfbslide_open sampleRuntime sampleProcess 7 "slide.kfb" =
      some (some sampleHandle,
        { sampleProcess with
          trace := sampleProcess.trace ++
            [Event.InitImageFile 7 "slide.kfb", Event.GetHeaderInfo 7, Event.GetLabelImage 7,
             Event.GetThumbnailImage 7, Event.GetPreviewImage 7] }) ∧
    ("label" ∈ associatedNames sampleHandle ↔
      (mapFind sampleHandle.assoImages "label").isSome = true) ∧
    "macro" ∉ associatedNames sampleHandle ∧
    kfbslide_read_associated_image sampleRuntime (some sampleHandle) (some "macro") = none ∧
    kfbslide_get_associated_image_names (some sampleHandle) = some ["label", "thumbnail"] ∧
    kfbslide_get_associated_image_dimensions (some sampleHandle) (some "label") (some 1)
      (some 1) (some 1) = { width := some 4, height := some 4, nBytes := some 48 } ∧
    kfbslide_read_associated_image sampleRuntime (some sampleHandle) (some "thumbnail") =
      sampleRuntime.malloc (toSizeT 300) :=
  have t := associated_cache_consistency sampleRuntime sampleRuntime sampleProcess 7 "slide.kfb"
    sampleHandle _ sample_open
  have v := (t "label").2.2.2.2.2.1 _ _ _ rfl rfl rfl
  ⟨sample_open, (t "label").1, by decide, ((t "macro").2.2.1 (by decide)).1,
    v.1, v.2.1 1 1 1, v.2.2.2.2.2.1⟩

/-! ## Backend invariant and failed opens -/

theorem kfbslide_init_mandatory (rt : Runtime) (p : Process) (dllPath : String)
    (hp : Mandatory p) : Mandatory (kfbslide_init rt p dllPath).2 := by
  unfold kfbslide_init
  cases hi : p.g_kfb_lib.initialized with
  | true => simpa using hp
  | false =>
    simp only [Bool.false_eq_true, if_false]
    cases hd : rt.dlopen dllPath with
    | none =>
      intro h
      simp [hi] at h
    | some r =>
      obtain ⟨handle, so⟩ := r
      simp only
      split_ifs with hm
      · intro h
        simp [hi] at h
      · intro _
        simp only [Bool.or_eq_true, not_or, Option.isNone_iff_eq_none, ← ne_eq,
          Option.ne_none_iff_isSome] at hm
        exact ⟨hm.1.1, hm.1.2, hm.2⟩

theorem kfbslide_open_lib (rt : Runtime) (p : Process) (imgStruct : Ptr) (filename : String)
    (r : Option ImgHandle × Process) (h : kfbslide_open rt p imgStruct filename = some r) :
    r.2.g_kfb_lib = p.g_kfb_lib := by
  unfold kfbslide_open at h
  dsimp only at h
  split at h
  · simp only [Option.some.injEq] at h
    rw [← h]
  · split at h
    · simp at h
    · split at h
      · simp only [Option.some.injEq] at h
        rw [← h]
      · split at h
        · simp at h
        · split at h <;>
          · simp only [Option.some.injEq] at h
            rw [← h]

theorem kfbslide_read_region_lib (p : Process) (s : Option ImgHandle) (level x y : Int)
    (nBytes : Option Int) (buf : Option (Option Ptr)) :
    (kfbslide_read_region p s level x y nBytes buf).proc.g_kfb_lib = p.g_kfb_lib := by
  unfold kfbslide_read_region
  repeat' split
  all_goals rfl

theorem kfbslide_get_image_roi_stream_lib (p : Process) (s : Option ImgHandle)
    (level x y width height : Int) (nBytes : Option Int) (buf : Option (Option Ptr)) :
    (kfbslide_get_image_roi_stream p s level x y width height nBytes buf).proc.g_kfb_lib =
      p.g_kfb_lib := by
  unfold kfbslide_get_image_roi_stream
  repeat' split
  all_goals rfl

/-- Every reachable process satisfies the backend invariant. -/
theorem reachable_mandatory (p : Process) (hp : Reachable p) : Mandatory p := by
  induction hp with
  | start => intro h; simp [Process.start, KfbLibrary.new] at h
  | init rt p dllPath _ ih => exact kfbslide_init_mandatory rt p dllPath ih
  | cleanup p _ _ => intro h; simp [kfbslide_cleanup, KfbLibrary.new] at h
  | opened rt p imgStruct filename r _ ho ih =>
    unfold Mandatory
    rw [kfbslide_open_lib rt p imgStruct filename r ho]
    exact ih
  | close p s _ ih =>
    cases s with
    | none => exact ih
    | some h => exact ih
  | read_region p s level x y nBytes buf _ ih =>
    unfold Mandatory
    rw [kfbslide_read_region_lib]
    exact ih
  | roi p s level x y width height nBytes buf _ ih =>
    unfold Mandatory
    rw [kfbslide_get_image_roi_stream_lib]
    exact ih
  | buffer_free p buf _ ih =>
    cases buf with
    | none => exact ih
    | some a => exact ih
  | region_buffer_free p buf _ ih =>
    cases buf with
    | none => exact ih
    | some a =>
      unfold Mandatory kfbslide_region_buffer_free
      split_ifs <;> exact ih

theorem callsSince_append (p : Process) (l : Trace) :
    callsSince p { p with trace := p.trace ++ l } = l := by
  simp [callsSince]

/-- C8: `kfbslide_open` never returns a half-built handle and tears down symmetrically. In
every reachable process the call is defined and leaves `g_kfb_lib` (loaded flag and
capability table) as it was. If the backend is not loaded, it returns no handle and makes
no call at all. If `InitImageFile` fails, it returns no handle and the only call is that
`InitImageFile`: `UnInitImageFile` is not invoked. If `InitImageFile` succeeds and
`GetHeaderInfo` fails, it returns no handle and `UnInitImageFile` is invoked exactly once,
on the context of this handle. -/
theorem open_failure_teardown (rt : Runtime) (p : Process) (imgStruct : Ptr)
    (filename : String) (hp : Reachable p) :
    (∃ r, kfbslide_open rt p imgStruct filename = some r ∧ r.2.g_kfb_lib = p.g_kfb_lib) ∧
    (p.g_kfb_lib.initialized = false →
      kfbslide_open rt p imgStruct filename = some (none, p) ∧
      callsSince p p = []) ∧
    (∀ initImageFile, p.g_kfb_lib.initialized = true →
      p.g_kfb_lib.InitImageFile = some initImageFile →
      initImageFile p.trace imgStruct filename = false →
      ∃ p', kfbslide_open rt p imgStruct filename = some (none, p') ∧
        p'.g_kfb_lib = p.g_kfb_lib ∧
        callsSince p p' = [Event.InitImageFile imgStruct filename] ∧
        uninitCount imgStruct (callsSince p p') = 0) ∧
    (∀ initImageFile getHeaderInfo, p.g_kfb_lib.initialized = true →
      p.g_kfb_lib.InitImageFile = some initImageFile →
      p.g_kfb_lib.GetHeaderInfo = some getHeaderInfo →
      initImageFile p.trace imgStruct filename = true →
      (getHeaderInfo (p.trace ++ [Event.InitImageFile imgStruct filename]) imgStruct).1 = 0 →
      ∃ p', kfbslide_open rt p imgStruct filename = some (none, p') ∧
        p'.g_kfb_lib = p.g_kfb_lib ∧
        callsSince p p' = [Event.InitImageFile imgStruct filename,
          Event.GetHeaderInfo imgStruct, Event.UnInitImageFile imgStruct] ∧
        uninitCount imgStruct (callsSince p p') = 1) := by
  have hm := reachable_mandatory p hp
  refine ⟨?_, ?_, ?_, ?_⟩
  · cases hi : p.g_kfb_lib.initialized with
    | false => exact ⟨(none, p), by simp [kfbslide_open, hi], rfl⟩
    | true =>
      obtain ⟨h1, h2, _⟩ := hm hi
      obtain ⟨f, hf⟩ := Option.isSome_iff_exists.mp h1
      obtain ⟨g, hg⟩ := Option.isSome_iff_exists.mp h2
      have hdef : ∃ r, kfbslide_open rt p imgStruct filename = some r := by
        simp only [kfbslide_open, hi, hf, hg, Bool.not_true, Bool.false_eq_true, if_false]
        split_ifs <;> exact ⟨_, rfl⟩
      obtain ⟨r, hr⟩ := hdef
      exact ⟨r, hr, kfbslide_open_lib rt p imgStruct filename r hr⟩
  · intro hi
    exact ⟨by simp [kfbslide_open, hi], by simp [callsSince]⟩
  · intro f hi hf hfail
    refine ⟨{ p with trace := p.trace ++ [Event.InitImageFile imgStruct filename] }, ?_, rfl,
      callsSince_append p _, ?_⟩
    · simp [kfbslide_open, hi, hf, ImgHandle.new, hfail, ImgHandle.destroy]
    · rw [callsSince_append]
      simp [uninitCount]
  · intro f g hi hf hg hok hfail
    obtain ⟨_, _, h3⟩ := hm hi
    refine ⟨{ p with trace := p.trace ++ [Event.InitImageFile imgStruct filename,
      Event.GetHeaderInfo imgStruct, Event.UnInitImageFile imgStruct] }, ?_, rfl,
      callsSince_append p _, ?_⟩
    · simp [kfbslide_open, hi, hf, hg, ImgHandle.new, hok, hfail, ImgHandle.destroy, h3]
    · rw [callsSince_append]
      simp [uninitCount]

theorem sampleProcess_reachable : Reachable sampleProcess :=
  Reachable.init sampleRuntime Process.start "libImageOperationLib.so" Reachable.start

theorem open_failure_teardown_witness :
    Reachable sampleProcess ∧ Reachable Process.start ∧
    Process.start.g_kfb_lib.initialized = false ∧
    kfbslide_open sampleRuntime Process.start 7 "slide.kfb" = some (none, Process.start) ∧
    sampleInitImageFile sampleProcess.trace 7 "missing.kfb" = false ∧
    (∃ p', kfbslide_open sampleRuntime sampleProcess 7 "missing.kfb" = some (none, p') ∧
      p'.g_kfb_lib = sampleProcess.g_kfb_lib ∧
      callsSince sampleProcess p' = [Event.InitImageFile 7 "missing.kfb"] ∧
      uninitCount 7 (callsSince sampleProcess p') = 0) ∧
    (sampleGetHeaderInfo (sampleProcess.trace ++ [Event.InitImageFile 7 "truncated.kfb"]) 7).1 = 0 ∧
    (∃ p', kfbslide_open sampleRuntime sampleProcess 7 "truncated.kfb" = some (none, p') ∧
      p'.g_kfb_lib = sampleProcess.g_kfb_lib ∧
      callsSince sampleProcess p' = [Event.InitImageFile 7 "truncated.kfb",
        Event.GetHeaderInfo 7, Event.UnInitImageFile 7] ∧
      uninitCount 7 (callsSince sampleProcess p') = 1) :=
  ⟨sampleProcess_reachable, Reachable.start, rfl,
    ((open_failure_teardown sampleRuntime Process.start 7 "slide.kfb" Reachable.start).2.1 rfl).1,
    by decide,
    (open_failure_teardown sampleRuntime sampleProcess 7 "missing.kfb"
      sampleProcess_reachable).2.2.1 sampleInitImageFile rfl rfl (by decide),
    by decide,
    (open_failure_teardown sampleRuntime sampleProcess 7 "truncated.kfb"
      sampleProcess_reachable).2.2.2 sampleInitImageFile sampleGetHeaderInfo rfl rfl rfl
      (by decide) (by decide)⟩

/-! ## Loading the backend -/

/-- When `dlopen` fails, `kfbslide_init` fails and `g_kfb_lib` is left as it was. -/
theorem kfbslide_init_dlopen_failure (rt : Runtime) (p : Process) (dllPath : String)
    (hi : p.g_kfb_lib.initialized = false) (hd : rt.dlopen dllPath = none) :
    kfbslide_init rt p dllPath =
      (false, { p with trace := p.trace ++ [Event.dlopen dllPath] }) := by
  simp [kfbslide_init, hi, hd]

/-- C9 (the code at the failing input): `kfbslide_init` from the unloaded backend, on a
shared object that opens and exports every symbol except `GetHeaderInfoFunc`. The call
fails, `initialized` stays false, the library is closed and `handle` is null, but the
entries resolved before the check stay in the table: `g_kfb_lib` is not the unloaded
state, and `kfbslide_region_buffer_free` then calls `DeleteImageData` of the closed
library. `kfbslide_cleanup` on the same state does reset every entry. -/
theorem failed_init_keeps_entries :
    (kfbslide_init headerlessRuntime Process.start "libImageOperationLib.so").1 = false ∧
    (kfbslide_init headerlessRuntime Process.start
      "libImageOperationLib.so").2.g_kfb_lib.initialized = false ∧
    (kfbslide_init headerlessRuntime Process.start
      "libImageOperationLib.so").2.g_kfb_lib.handle = none ∧
    (kfbslide_init headerlessRuntime Process.start "libImageOperationLib.so").2.trace =
      [Event.dlopen "libImageOperationLib.so", Event.dlclose 4096] ∧
    (kfbslide_init headerlessRuntime Process.start
      "libImageOperationLib.so").2.g_kfb_lib.InitImageFile.isSome = true ∧
    (kfbslide_init headerlessRuntime Process.start
      "libImageOperationLib.so").2.g_kfb_lib.UnInitImageFile.isSome = true ∧
    (kfbslide_init headerlessRuntime Process.start
      "libImageOperationLib.so").2.g_kfb_lib.DeleteImageData.isSome = true ∧
    (kfbslide_init headerlessRuntime Process.start
      "libImageOperationLib.so").2.g_kfb_lib.GetImageStream.isSome = true ∧
    (kfbslide_init headerlessRuntime Process.start
      "libImageOperationLib.so").2.g_kfb_lib.GetLabelImage.isSome = true ∧
    (kfbslide_init headerlessRuntime Process.start
      "libImageOperationLib.so").2.g_kfb_lib ≠ KfbLibrary.new ∧
    (kfbslide_region_buffer_free
      (kfbslide_init headerlessRuntime Process.start "libImageOperationLib.so").2
      (some 500)).2.trace =
      [Event.dlopen "libImageOperationLib.so", Event.dlclose 4096, Event.DeleteImageData 500] ∧
    (kfbslide_cleanup
      (kfbslide_init headerlessRuntime Process.start
        "libImageOperationLib.so").2).g_kfb_lib = KfbLibrary.new := by
  refine ⟨rfl, rfl, rfl, rfl, rfl, rfl, rfl, rfl, rfl, ?_, rfl, rfl⟩
  intro h
  have h2 := congrArg (fun l => l.InitImageFile.isSome) h
  exact absurd h2 (by decide)

/-! ## Zero and false results -/

theorem ilog2_flat : ilog2 100 = 6 := by
  have h : Nat.log 2 100 = 6 := by norm_num [Nat.log_eq_iff]
  simp [ilog2, h]

theorem flat_open :
    kfbslide_open flatRuntime flatProcess 7 "slide.kfb" =
      some (some flatHandle,
        { flatProcess with
          trace := flatProcess.trace ++
            [Event.InitImageFile 7 "slide.kfb", Event.GetHeaderInfo 7, Event.GetLabelImage 7,
             Event.GetThumbnailImage 7, Event.GetPreviewImage 7] }) := by
  simp [kfbslide_open, flatProcess, kfbslide_init, flatRuntime, flatObject,
    sampleRuntime, sampleObject, Process.start, KfbLibrary.new, ImgHandle.new,
    ImgHandle.fromHeader, load_associated_images, loadOne, mapAssign, flatHeader,
    sampleHeader, flatHandle, sampleHandle, ilog2_flat, sampleInitImageFile]
  decide

theorem flat_read_region :
    (kfbslide_read_region flatProcess (some flatHandle) 0 0 0 (some 7) (some (some 3))).ret =
      false ∧
    (kfbslide_read_region flatProcess (some flatHandle) 0 0 0 (some 7)
      (some (some 3))).proc.trace = flatProcess.trace ++ [Event.GetImageStream 7 20 0 0] ∧
    (kfbslide_read_region flatProcess (some flatHandle) 0 0 0 (some 7) (some (some 3))).nBytes =
      some 0 ∧
    (kfbslide_read_region flatProcess (some flatHandle) 0 0 0 (some 7) (some (some 3))).buf =
      some none := by
  have hc : ¬ ((0 : Int) < 0 ∨ (0 : Int) ≥ flatHandle.maxLevel) := by decide
  have hg : flatProcess.g_kfb_lib.GetImageStream =
      some (fun _ _ _ _ _ _ => { nBytes := 0, buf := none }) := rfl
  have hx : levelCoord (some flatHandle) 0 0 = 0 := by
    rw [levelCoord_in_range flatHandle 0 0 (by decide) (by decide)]
    decide
  have hsc : levelScale flatHandle 0 = 20 := by
    rw [levelScale_in_range flatHandle 0 (by decide) (by decide),
      toFloat_exact flatHandle.scanScale _ (by decide)]
    norm_num [flatHandle, sampleHandle]
  refine ⟨?_, ?_, ?_, ?_⟩
  all_goals
    simp only [kfbslide_read_region, hc, if_false, hg, hx, hsc]
    try rfl

/-- Rejected arguments of `kfbslide_read_region` (null handle or output pointer, level out of
range, no streaming capability): the result is false, nothing is written, no call is
made. -/
theorem kfbslide_read_region_rejected (p : Process) (s : Option ImgHandle) (level x y : Int)
    (nBytes : Option Int) (buf : Option (Option Ptr))
    (hbad : s = none ∨ nBytes = none ∨ buf = none ∨ level < 0 ∨
      kfbslide_get_level_count s ≤ level ∨ p.g_kfb_lib.GetImageStream = none) :
    kfbslide_read_region p s level x y nBytes buf =
      { ret := false, nBytes := nBytes, buf := buf, proc := p } := by
  cases s with
  | none => cases nBytes <;> cases buf <;> rfl
  | some h =>
    cases nBytes with
    | none => cases buf <;> rfl
    | some nb =>
      cases buf with
      | none => rfl
      | some b =>
        simp only [kfbslide_get_level_count, reduceCtorEq, false_or] at hbad
        by_cases hc : level < 0 ∨ level ≥ h.maxLevel
        · simp only [kfbslide_read_region, hc, if_true]
        · have hcap : p.g_kfb_lib.GetImageStream = none := by
            rcases hbad with h1 | h1 | h1
            · exact absurd (Or.inl h1) hc
            · exact absurd (Or.inr h1) hc
            · exact h1
          simp only [kfbslide_read_region, hc, if_false, hcap]

/-- C10 (as stated, refuted): on the handle of a 100 x 1 slide (six levels),
`kfbslide_get_level_dimensions` at level 1 returns 0, the height of that level, after
overwriting both outputs; and `kfbslide_read_region` returns false after the vendor
streaming call was made and has overwritten the byte count and the buffer pointer. -/
theorem zero_result_counterexample :
    kfbslide_open flatRuntime flatProcess 7 "slide.kfb" =
      some (some flatHandle,
        { flatProcess with
          trace := flatProcess.trace ++
            [Event.InitImageFile 7 "slide.kfb", Event.GetHeaderInfo 7, Event.GetLabelImage 7,
             Event.GetThumbnailImage 7, Event.GetPreviewImage 7] }) ∧
    kfbslide_get_level_dimensions (some flatHandle) 1 (some 11) (some 12) =
      { ret := 0, width := some 50, height := some 0 } ∧
    ¬ ((kfbslide_get_level_dimensions (some flatHandle) 1 (some 11) (some 12)).ret = 0 →
        (kfbslide_get_level_dimensions (some flatHandle) 1 (some 11) (some 12)).width = some 11 ∧
        (kfbslide_get_level_dimensions (some flatHandle) 1 (some 11) (some 12)).height =
          some 12) ∧
    (kfbslide_read_region flatProcess (some flatHandle) 0 0 0 (some 7) (some (some 3))).ret =
      false ∧
    (kfbslide_read_region flatProcess (some flatHandle) 0 0 0 (some 7)
      (some (some 3))).proc.trace = flatProcess.trace ++ [Event.GetImageStream 7 20 0 0] ∧
    (kfbslide_read_region flatProcess (some flatHandle) 0 0 0 (some 7) (some (some 3))).nBytes =
      some 0 ∧
    (kfbslide_read_region flatProcess (some flatHandle) 0 0 0 (some 7) (some (some 3))).buf =
      some none := by
  have hd : kfbslide_get_level_dimensions (some flatHandle) 1 (some 11) (some 12) =
      { ret := 0, width := some 50, height := some 0 } := by decide
  refine ⟨flat_open, hd, ?_, flat_read_region.1, flat_read_region.2.1, flat_read_region.2.2.1,
    flat_read_region.2.2.2⟩
  rw [hd]
  intro h
  exact absurd (h rfl).1 (by decide)

/-- C10 (amended): whenever `kfbslide_get_level_dimensions` returns 0, either both outputs
are left as they were, or the arguments were accepted (non-null handle and outputs, level
in range), the outputs hold `(width >> level, height >> level)` and the height of that
level is 0. Whenever `kfbslide_read_region` returns false, either nothing happened (no
call, outputs and process unchanged), or the arguments were accepted, the vendor
streaming call was made once and the byte count it left is not positive. Rejected
arguments (a null handle or output pointer, a level out of range and, for
`kfbslide_read_region`, a missing streaming capability) always give the zero resp. false
result with nothing written and no call, for both functions. -/
theorem zero_result_effects (p : Process) (s : Option ImgHandle) (level x y : Int)
    (width height nBytes : Option Int) (buf : Option (Option Ptr)) :
    ((kfbslide_get_level_dimensions s level width height).ret = 0 →
      ((kfbslide_get_level_dimensions s level width height).width = width ∧
        (kfbslide_get_level_dimensions s level width height).height = height) ∨
      ∃ (h : ImgHandle) (w0 h0 : Int), s = some h ∧ width = some w0 ∧ height = some h0 ∧
        0 ≤ level ∧ level < h.maxLevel ∧ h.height >>> level.toNat = 0 ∧
        (kfbslide_get_level_dimensions s level width height).width =
          some (h.width >>> level.toNat) ∧
        (kfbslide_get_level_dimensions s level width height).height = some 0) ∧
    ((kfbslide_read_region p s level x y nBytes buf).ret = false →
      kfbslide_read_region p s level x y nBytes buf =
        { ret := false, nBytes := nBytes, buf := buf, proc := p } ∨
      ∃ (h : ImgHandle) (nb : Int) (b : Option Ptr) (getImageStream : DLLGetImageStreamFunc),
        s = some h ∧ nBytes = some nb ∧ buf = some b ∧ 0 ≤ level ∧ level < h.maxLevel ∧
        p.g_kfb_lib.GetImageStream = some getImageStream ∧
        (kfbslide_read_region p s level x y nBytes buf).proc.trace =
          p.trace ++ [Event.GetImageStream h.imgStruct (levelScale h level)
            (levelCoord s level x) (levelCoord s level y)] ∧
        (kfbslide_read_region p s level x y nBytes buf).nBytes =
          some (getImageStream p.trace h.imgStruct (levelScale h level)
            (levelCoord s level x) (levelCoord s level y) { nBytes := nb, buf := b }).nBytes ∧
        (getImageStream p.trace h.imgStruct (levelScale h level)
          (levelCoord s level x) (levelCoord s level y) { nBytes := nb, buf := b }).nBytes ≤ 0) ∧
    ((s = none ∨ width = none ∨ height = none ∨ level < 0 ∨
        kfbslide_get_level_count s ≤ level) →
      kfbslide_get_level_dimensions s level width height =
        { ret := 0, width := width, height := height }) ∧
    ((s = none ∨ nBytes = none ∨ buf = none ∨ level < 0 ∨
        kfbslide_get_level_count s ≤ level ∨ p.g_kfb_lib.GetImageStream = none) →
      kfbslide_read_region p s level x y nBytes buf =
        { ret := false, nBytes := nBytes, buf := buf, proc := p }) := by
  refine ⟨?_, ?_, ?_, kfbslide_read_region_rejected p s level x y nBytes buf⟩
  · intro hret
    cases s with
    | none => left; cases width <;> cases height <;> exact ⟨rfl, rfl⟩
    | some h =>
      cases width with
      | none => left; cases height <;> exact ⟨rfl, rfl⟩
      | some w0 =>
        cases height with
        | none => left; exact ⟨rfl, rfl⟩
        | some h0 =>
          by_cases hc : level < 0 ∨ level ≥ h.maxLevel
          · left
            simp [kfbslide_get_level_dimensions, hc]
          · right
            simp only [kfbslide_get_level_dimensions, hc, if_false] at hret ⊢
            exact ⟨h, w0, h0, rfl, rfl, rfl, by omega, by omega, hret, rfl, by rw [hret]⟩
  · intro hret
    cases s with
    | none => left; cases nBytes <;> cases buf <;> rfl
    | some h =>
      cases nBytes with
      | none => left; cases buf <;> rfl
      | some nb =>
        cases buf with
        | none => left; rfl
        | some b =>
          by_cases hc : level < 0 ∨ level ≥ h.maxLevel
          · left
            simp [kfbslide_read_region, hc]
          · cases hg : p.g_kfb_lib.GetImageStream with
            | none =>
              left
              simp [kfbslide_read_region, hc, hg]
            | some f =>
              right
              simp only [kfbslide_read_region, hc, if_false, hg, decide_eq_false_iff_not,
                gt_iff_lt, not_lt] at hret ⊢
              exact ⟨h, nb, b, f, rfl, rfl, rfl, by omega, by omega, rfl, rfl, rfl, hret⟩
  · intro hbad
    cases s with
    | none => cases width <;> cases height <;> rfl
    | some h =>
      cases width with
      | none => cases height <;> rfl
      | some w0 =>
        cases height with
        | none => rfl
        | some h0 =>
          simp only [kfbslide_get_level_count, reduceCtorEq, false_or] at hbad
          have hc : level < 0 ∨ level ≥ h.maxLevel := by omega
          simp [kfbslide_get_level_dimensions, hc]

theorem zero_result_effects_witness :
    (kfbslide_get_level_dimensions (some flatHandle) 1 (some 11) (some 12)).ret = 0 ∧
    (((kfbslide_get_level_dimensions (some flatHandle) 1 (some 11) (some 12)).width = some 11 ∧
        (kfbslide_get_level_dimensions (some flatHandle) 1 (some 11) (some 12)).height =
          some 12) ∨
      ∃ (h : ImgHandle) (w0 h0 : Int), some flatHandle = some h ∧ some (11 : Int) = some w0 ∧
        some (12 : Int) = some h0 ∧
        (0 : Int) ≤ 1 ∧ 1 < h.maxLevel ∧ h.height >>> (1 : Int).toNat = 0 ∧
        (kfbslide_get_level_dimensions (some flatHandle) 1 (some 11) (some 12)).width =
          some (h.width >>> (1 : Int).toNat) ∧
        (kfbslide_get_level_dimensions (some flatHandle) 1 (some 11) (some 12)).height =
          some 0) ∧
    kfbslide_get_level_dimensions (some flatHandle) 6 (some 11) (some 12) =
      { ret := 0, width := some 11, height := some 12 } ∧
    (kfbslide_read_region flatProcess (some flatHandle) 0 0 0 (some 7) (some (some 3))).ret =
      false ∧
    (kfbslide_read_region flatProcess (some flatHandle) 0 0 0 (some 7) (some (some 3)) =
        { ret := false, nBytes := some 7, buf := some (some 3), proc := flatProcess } ∨
      ∃ (h : ImgHandle) (nb : Int) (b : Option Ptr) (getImageStream : DLLGetImageStreamFunc),
        some flatHandle = some h ∧ some (7 : Int) = some nb ∧ some (some (3 : Ptr)) = some b ∧
        (0 : Int) ≤ 0 ∧ 0 < h.maxLevel ∧
        flatProcess.g_kfb_lib.GetImageStream = some getImageStream ∧
        (kfbslide_read_region flatProcess (some flatHandle) 0 0 0 (some 7)
          (some (some 3))).proc.trace =
          flatProcess.trace ++ [Event.GetImageStream h.imgStruct (levelScale h 0)
            (levelCoord (some flatHandle) 0 0) (levelCoord (some flatHandle) 0 0)] ∧
        (kfbslide_read_region flatProcess (some flatHandle) 0 0 0 (some 7)
          (some (some 3))).nBytes =
          some (getImageStream flatProcess.trace h.imgStruct (levelScale h 0)
            (levelCoord (some flatHandle) 0 0) (levelCoord (some flatHandle) 0 0)
            { nBytes := nb, buf := b }).nBytes ∧
        (getImageStream flatProcess.trace h.imgStruct (levelScale h 0)
          (levelCoord (some flatHandle) 0 0) (levelCoord (some flatHandle) 0 0)
          { nBytes := nb, buf := b }).nBytes ≤ 0) ∧
    kfbslide_read_region flatProcess (some flatHandle) 6 0 0 (some 7) (some (some 3)) =
      { ret := false, nBytes := some 7, buf := some (some 3), proc := flatProcess } ∧
    kfbslide_read_region Process.start (some flatHandle) 0 0 0 (some 7) (some (some 3)) =
      { ret := false, nBytes := some 7, buf := some (some 3), proc := Process.start } :=
  ⟨by decide,
    (zero_result_effects flatProcess (some flatHandle) 1 0 0 (some 11) (some 12) (some 7)
      (some (some 3))).1 (by decide),
    (zero_result_effects flatProcess (some flatHandle) 6 0 0 (some 11) (some 12) (some 7)
      (some (some 3))).2.2.1 (Or.inr (Or.inr (Or.inr (Or.inr (by decide))))),
    flat_read_region.1,
    (zero_result_effects flatProcess (some flatHandle) 0 0 0 (some 11) (some 12) (some 7)
      (some (some 3))).2.1 flat_read_region.1,
    (zero_result_effects flatProcess (some flatHandle) 6 0 0 (some 11) (some 12) (some 7)
      (some (some 3))).2.2.2 (Or.inr (Or.inr (Or.inr (Or.inr (Or.inl (by decide)))))),
    (zero_result_effects Process.start (some flatHandle) 0 0 0 (some 11) (some 12) (some 7)
      (some (some 3))).2.2.2 (Or.inr (Or.inr (Or.inr (Or.inr (Or.inr rfl)))))⟩

end KfbReader
